import Mathlib

/-!
Verification of the response-parsing layer of the Quectel RM520N-GL network
data extractor (modi.py).  The decoders of class NetworkDataExtractor are
shallowly embedded as pure Lean functions over a `NetworkData` record; the
serial transport is abstracted to the lists of response lines each AT query
returns, exactly as the decoders receive them.

Python string primitives used by the source are modelled on `List Char`
so that every definition evaluates by kernel reduction:
  * `s.split(",")`        → `pySplit`
  * `s.split(":", 1)`     → `pySplitOnce`
  * `s.strip('"')`        → `stripQ`
  * `s.strip()`           → `pyStrip`
  * `s.startswith(p)`     → `pyStartsWith`
  * `needle in s`         → `pyIn`
  * `int(s)`              → `pyToInt?` (sign, decimal digits, optional single
                            underscores between digits, surrounding blanks)
-/

/-- Boolean prefix test on character lists. -/
def listIsPrefixOf : List Char → List Char → Bool
  | [], _ => true
  | _ :: _, [] => false
  | a :: as, b :: bs => a = b && listIsPrefixOf as bs

/-- Boolean substring (contiguous sublist) test on character lists. -/
def listHasSub (n : List Char) : List Char → Bool
  | [] => n.isEmpty
  | c :: cs => listIsPrefixOf n (c :: cs) || listHasSub n cs

/-- Python `s.startswith(p)`. -/
def pyStartsWith (p s : String) : Bool := listIsPrefixOf p.toList s.toList

/-- Python `needle in hay` for strings. -/
def pyIn (needle hay : String) : Bool := listHasSub needle.toList hay.toList

/-- Splits a character list at every occurrence of `c`, keeping empty parts,
as Python `split` with an explicit one-character separator does. -/
def splitAux (c : Char) : List Char → List (List Char)
  | [] => [[]]
  | x :: xs =>
    let r := splitAux c xs
    if x = c then [] :: r
    else
      match r with
      | [] => [[x]]
      | y :: ys => (x :: y) :: ys

/-- Python `s.split(c)` for a one-character separator. -/
def pySplit (c : Char) (s : String) : List String :=
  (splitAux c s.toList).map List.asString

/-- First occurrence split: `none` when `c` does not occur, otherwise the
characters before and after its first occurrence. -/
def splitOnceAux (c : Char) : List Char → Option (List Char × List Char)
  | [] => none
  | x :: xs =>
    if x = c then some ([], xs)
    else
      match splitOnceAux c xs with
      | none => none
      | some (a, b) => some (x :: a, b)

/-- Python `s.split(c, 1)`: one or two parts. -/
def pySplitOnce (c : Char) (s : String) : List String :=
  match splitOnceAux c s.toList with
  | none => [s]
  | some (a, b) => [a.asString, b.asString]

/-- Removes every leading and trailing character satisfying `p`. -/
def stripWhile (p : Char → Bool) (l : List Char) : List Char :=
  ((l.dropWhile p).reverse.dropWhile p).reverse

/-- Python `s.strip('"')`. -/
def stripQ (s : String) : String :=
  (stripWhile (fun c => c = '"') s.toList).asString

/-- Python whitespace set used by `str.strip()`. -/
def isPySpace (c : Char) : Bool :=
  c = ' ' || c = '\t' || c = '\n' || c = '\x0d' || c = '\x0b' || c = '\x0c'

/-- Python `s.strip()`. -/
def pyStrip (s : String) : String :=
  (stripWhile isPySpace s.toList).asString

/-- Checks the characters that may follow the leading digit of a Python
integer literal: decimal digits with single underscores between digits. -/
def pyDigitsRest : List Char → Bool
  | [] => true
  | '_' :: rest =>
    match rest with
    | [] => false
    | c :: cs => c.isDigit && pyDigitsRest (c :: cs)
  | c :: cs => c.isDigit && pyDigitsRest cs

/-- Numeric value of a list of decimal digits. -/
def digitsVal (l : List Char) : Nat :=
  l.foldl (fun a c => a * 10 + (c.toNat - 48)) 0

/-- Python `int(s)`: strips surrounding whitespace, accepts an optional
sign and a nonempty run of decimal digits with optional single underscores
between digits; every other input raises, modelled as `none`. -/
def pyToInt? (s : String) : Option Int :=
  let core : Int → List Char → Option Int := fun sign ds =>
    match ds with
    | [] => none
    | c :: cs =>
      if c.isDigit && pyDigitsRest cs then
        some (sign * (digitsVal ((c :: cs).filter (fun x => x ≠ '_')) : Int))
      else none
  match stripWhile isPySpace s.toList with
  | '+' :: r => core 1 r
  | '-' :: r => core (-1) r
  | r => core 1 r

/-- JSON string escaping as `json.dumps` performs it on the parsed fields:
backslash, double quote and control characters are escaped. -/
def jsonEscapeChar (c : Char) : List Char :=
  if c = '\\' then ['\\', '\\']
  else if c = '"' then ['\\', '"']
  else if c = '\n' then ['\\', 'n']
  else if c = '\x0d' then ['\\', 'r']
  else if c = '\t' then ['\\', 't']
  else if c.toNat < 32 then
    let hex := Nat.toDigits 16 c.toNat
    ('\\' :: 'u' :: List.replicate (4 - hex.length) '0') ++ hex
  else [c]

/-- JSON rendering of a string. -/
def jsonStr (s : String) : String :=
  (('"' :: (s.toList.flatMap jsonEscapeChar)) ++ ['"']).asString

/-- JSON rendering of one neighbor-cell field map (a Python dict of strings,
in insertion order, with the default `json.dumps` separators). -/
def jsonDict (d : List (String × String)) : String :=
  "\x7b" ++ String.intercalate ", " (d.map (fun kv => jsonStr kv.1 ++ ": " ++ jsonStr kv.2)) ++ "\x7d"

/-- Python `json.dumps` on the accumulated neighbor-cell list. -/
def jsonDumps (cells : List (List (String × String))) : String :=
  "[" ++ String.intercalate ", " (cells.map jsonDict) ++ "]"

/-- Python `dict.get(key, default)` on an insertion-ordered field map. -/
def pyDictGet (d : List (String × String)) (key : String) (dflt : String) : String :=
  match d.find? (fun kv => kv.1 = key) with
  | some kv => kv.2
  | none => dflt

/-!
The normalized record: dataclass `NetworkData` of modi.py, one flat record
per sampling cycle, every field defaulting to the empty string or zero.
-/

/-- Dataclass `NetworkData` of modi.py. -/
@[ext] structure NetworkData where
  timestamp : String := ""
  rrc_state : String := ""
  cell_type : String := ""
  technology : String := ""
  mcc : String := ""
  mnc : String := ""
  cell_id : String := ""
  pci : String := ""
  tac_lac : String := ""
  earfcn_arfcn : String := ""
  band : String := ""
  bandwidth : String := ""
  scs : String := ""
  rsrp : String := ""
  rsrq : String := ""
  rssi : String := ""
  sinr : String := ""
  cqi : String := ""
  tx_power : String := ""
  cs_state : String := ""
  cs_lac : String := ""
  cs_ci : String := ""
  ps_state : String := ""
  ps_lac : String := ""
  ps_ci : String := ""
  eps_state : String := ""
  eps_tac : String := ""
  eps_ci : String := ""
  nr5g_state : String := ""
  nr5g_tac : String := ""
  nr5g_ci : String := ""
  sim_state : String := ""
  operator : String := ""
  operator_mcc_mnc : String := ""
  attach_state : String := ""
  neighbor_count : Nat := 0
  best_neighbor_rsrp : String := ""
  neighbor_cells_json : String := ""
  csq_rssi : String := ""
  csq_ber : String := ""
  serving_cell_count : Nat := 0
  ca_info : String := ""
deriving DecidableEq, Repr

/-- A freshly constructed `NetworkData()` record, all fields at default. -/
def NetworkData.init : NetworkData := {}

/-- Method `_decode_reg_state`: the fixed lookup table from registration
state codes to symbolic names, unmapped codes yielding UNKNOWN_ plus the
original code. -/
def decode_reg_state (state : String) : String :=
  if state = "0" then "NOT_REGISTERED"
  else if state = "1" then "REGISTERED_HOME"
  else if state = "2" then "SEARCHING"
  else if state = "3" then "DENIED"
  else if state = "4" then "UNKNOWN"
  else if state = "5" then "REGISTERED_ROAMING"
  else if state = "6" then "REGISTERED_SMS_ONLY_HOME"
  else if state = "7" then "REGISTERED_SMS_ONLY_ROAMING"
  else if state = "8" then "EMERGENCY_ONLY"
  else if state = "9" then "REGISTERED_CSFB_NOT_PREFERRED_HOME"
  else if state = "10" then "REGISTERED_CSFB_NOT_PREFERRED_ROAMING"
  else "UNKNOWN_" ++ state

/-!
Serving-cell decoder.  The four technology-specific parsers run inside a
try/except catching IndexError: each `parts[i].strip('"')` assignment is one
`tryAssign` step, and a failing index aborts the remaining assignments while
keeping the record updates already performed, exactly as the caught Python
exception does.  Assignments of the form
`parts[i].strip('"') if len(parts) > i else ""` never raise and are plain
record updates using `condGet`.
-/

/-- One `target.field = parts[i].strip('"')` assignment under a surrounding
try/except IndexError: out of bounds stops the chain, keeping the partial
state. -/
def tryAssign {σ : Type} (parts : List String) (i : Nat)
    (set : String → σ → σ) (k : σ → σ) (d : σ) : σ :=
  match parts[i]? with
  | none => d
  | some v => k (set (stripQ v) d)

/-- A guarded field read `parts[i].strip('"') if len(parts) > i else ""`. -/
def condGet (parts : List String) (i : Nat) : String :=
  if i < parts.length then stripQ (parts.getD i "") else ""

/-- One guarded assignment
`target.field = parts[i].strip('"') if len(parts) > i else ""`,
which can never raise. -/
def pureAssign {σ : Type} (parts : List String) (i : Nat)
    (set : String → σ → σ) (k : σ → σ) (d : σ) : σ :=
  k (set (condGet parts i) d)

/-- Method `_parse_lte_serving` of modi.py. -/
def parse_lte_serving (parts : List String) (d : NetworkData) : NetworkData :=
  if 18 ≤ parts.length then
    let off := if pyStartsWith "+QENG: \"LTE\"" (parts.getD 0 "") then 1 else 0
    tryAssign parts (3 + off) (fun v d => { d with mcc := v }) (
    tryAssign parts (4 + off) (fun v d => { d with mnc := v }) (
    tryAssign parts (5 + off) (fun v d => { d with cell_id := v }) (
    tryAssign parts (6 + off) (fun v d => { d with pci := v }) (
    tryAssign parts (7 + off) (fun v d => { d with earfcn_arfcn := v }) (
    tryAssign parts (8 + off) (fun v d => { d with band := v }) (
    pureAssign parts (9 + off) (fun v d => { d with bandwidth := v }) (
    tryAssign parts (11 + off) (fun v d => { d with tac_lac := v }) (
    tryAssign parts (12 + off) (fun v d => { d with rsrp := v }) (
    tryAssign parts (13 + off) (fun v d => { d with rsrq := v }) (
    tryAssign parts (14 + off) (fun v d => { d with rssi := v }) (
    tryAssign parts (15 + off) (fun v d => { d with sinr := v }) (
    pureAssign parts (16 + off) (fun v d => { d with cqi := v }) (
    pureAssign parts (17 + off) (fun v d => { d with tx_power := v })
    id)))))))))))))
    d
  else d

/-- Method `_parse_nr5g_sa_serving` of modi.py. -/
def parse_nr5g_sa_serving (parts : List String) (d : NetworkData) : NetworkData :=
  if 17 ≤ parts.length then
    tryAssign parts 4 (fun v d => { d with mcc := v }) (
    tryAssign parts 5 (fun v d => { d with mnc := v }) (
    tryAssign parts 6 (fun v d => { d with cell_id := v }) (
    tryAssign parts 7 (fun v d => { d with pci := v }) (
    tryAssign parts 8 (fun v d => { d with tac_lac := v }) (
    tryAssign parts 9 (fun v d => { d with earfcn_arfcn := v }) (
    tryAssign parts 10 (fun v d => { d with band := v }) (
    pureAssign parts 11 (fun v d => { d with bandwidth := v }) (
    tryAssign parts 12 (fun v d => { d with rsrp := v }) (
    tryAssign parts 13 (fun v d => { d with rsrq := v }) (
    tryAssign parts 14 (fun v d => { d with sinr := v }) (
    pureAssign parts 15 (fun v d => { d with rssi := v }) (
    pureAssign parts 16 (fun v d => { d with tx_power := v })
    id))))))))))))
    d
  else d

/-- Method `_parse_nr5g_nsa_serving` of modi.py. -/
def parse_nr5g_nsa_serving (parts : List String) (d : NetworkData) : NetworkData :=
  if 11 ≤ parts.length then
    tryAssign parts 1 (fun v d => { d with mcc := v }) (
    tryAssign parts 2 (fun v d => { d with mnc := v }) (
    tryAssign parts 3 (fun v d => { d with pci := v }) (
    tryAssign parts 4 (fun v d => { d with rsrp := v }) (
    tryAssign parts 5 (fun v d => { d with sinr := v }) (
    tryAssign parts 6 (fun v d => { d with rsrq := v }) (
    tryAssign parts 7 (fun v d => { d with earfcn_arfcn := v }) (
    tryAssign parts 8 (fun v d => { d with band := v }) (
    pureAssign parts 9 (fun v d => { d with bandwidth := v }) (
    pureAssign parts 10 (fun v d => { d with scs := v })
    id)))))))))
    d
  else d

/-- Method `_parse_wcdma_serving` of modi.py. -/
def parse_wcdma_serving (parts : List String) (d : NetworkData) : NetworkData :=
  if 17 ≤ parts.length then
    tryAssign parts 4 (fun v d => { d with mcc := v }) (
    tryAssign parts 5 (fun v d => { d with mnc := v }) (
    tryAssign parts 6 (fun v d => { d with tac_lac := v }) (
    tryAssign parts 7 (fun v d => { d with cell_id := v }) (
    tryAssign parts 8 (fun v d => { d with earfcn_arfcn := v }) (
    tryAssign parts 9 (fun v d => { d with pci := v }) (
    tryAssign parts 11 (fun v d => { d with rsrp := v }) (
    tryAssign parts 12 (fun v d => { d with rsrq := v }) (
    id))))))))
    d
  else d

/-- Body of the per-line loop of `_extract_serving_cell`. -/
def servingStep (d : NetworkData) (line : String) : NetworkData :=
  if pyStartsWith "+QENG: \"servingcell\"" line then
    let parts := pySplit ',' line
    if 3 ≤ parts.length then
      let d := { d with
        rrc_state := stripQ (parts.getD 1 ""),
        technology := stripQ (parts.getD 2 ""),
        cell_type := "serving" }
      if pyIn "LTE" d.technology then parse_lte_serving parts d
      else if pyIn "NR5G-SA" d.technology then parse_nr5g_sa_serving parts d
      else if pyIn "NR5G-NSA" d.technology then parse_nr5g_nsa_serving parts d
      else if pyIn "WCDMA" d.technology then parse_wcdma_serving parts d
      else d
    else d
  else if pyStartsWith "+QENG: \"LTE\"" line || pyStartsWith "+QENG: \"NR5G-NSA\"" line then
    { d with serving_cell_count := d.serving_cell_count + 1 }
  else d

/-- Method `_extract_serving_cell` of modi.py, applied to the response lines
of the serving-cell query. -/
def extract_serving_cell (lines : List String) (d : NetworkData) : NetworkData :=
  lines.foldl servingStep d

/-!
NAS registration-state decoder: method `_extract_nas_states`, four
structurally identical per-line loops over the responses of AT+CREG?,
AT+CGREG?, AT+CEREG? and AT+C5GREG?.
-/

/-- Body of the AT+CREG? loop of `_extract_nas_states`. -/
def cregStep (d : NetworkData) (line : String) : NetworkData :=
  if pyStartsWith "+CREG:" line then
    let parts := pySplit ',' line
    if 2 ≤ parts.length then
      let d := { d with cs_state := decode_reg_state (pyStrip (parts.getD 1 "")) }
      if 4 ≤ parts.length then
        { d with cs_lac := stripQ (parts.getD 2 ""), cs_ci := stripQ (parts.getD 3 "") }
      else d
    else d
  else d

/-- Body of the AT+CGREG? loop of `_extract_nas_states`. -/
def cgregStep (d : NetworkData) (line : String) : NetworkData :=
  if pyStartsWith "+CGREG:" line then
    let parts := pySplit ',' line
    if 2 ≤ parts.length then
      let d := { d with ps_state := decode_reg_state (pyStrip (parts.getD 1 "")) }
      if 4 ≤ parts.length then
        { d with ps_lac := stripQ (parts.getD 2 ""), ps_ci := stripQ (parts.getD 3 "") }
      else d
    else d
  else d

/-- Body of the AT+CEREG? loop of `_extract_nas_states`. -/
def ceregStep (d : NetworkData) (line : String) : NetworkData :=
  if pyStartsWith "+CEREG:" line then
    let parts := pySplit ',' line
    if 2 ≤ parts.length then
      let d := { d with eps_state := decode_reg_state (pyStrip (parts.getD 1 "")) }
      if 4 ≤ parts.length then
        { d with eps_tac := stripQ (parts.getD 2 ""), eps_ci := stripQ (parts.getD 3 "") }
      else d
    else d
  else d

/-- Body of the AT+C5GREG? loop of `_extract_nas_states`. -/
def c5gregStep (d : NetworkData) (line : String) : NetworkData :=
  if pyStartsWith "+C5GREG:" line then
    let parts := pySplit ',' line
    if 2 ≤ parts.length then
      let d := { d with nr5g_state := decode_reg_state (pyStrip (parts.getD 1 "")) }
      if 4 ≤ parts.length then
        { d with nr5g_tac := stripQ (parts.getD 2 ""), nr5g_ci := stripQ (parts.getD 3 "") }
      else d
    else d
  else d

/-- Method `_extract_nas_states` of modi.py, applied to the four
registration-query responses. -/
def extract_nas_states (creg cgreg cereg c5greg : List String) (d : NetworkData) : NetworkData :=
  let d := creg.foldl cregStep d
  let d := cgreg.foldl cgregStep d
  let d := cereg.foldl ceregStep d
  c5greg.foldl c5gregStep d

/-!
Auth/identity decoder: method `_extract_auth_info`, three per-line loops over
the responses of AT+CPIN?, AT+COPS? and AT+CGATT?.
-/

/-- Body of the AT+CPIN? loop of `_extract_auth_info`. -/
def cpinStep (d : NetworkData) (line : String) : NetworkData :=
  if pyStartsWith "+CPIN:" line then
    { d with sim_state := pyStrip ((pySplitOnce ':' line).getD 1 "") }
  else d

/-- Body of the AT+COPS? loop of `_extract_auth_info`. -/
def copsStep (d : NetworkData) (line : String) : NetworkData :=
  if pyStartsWith "+COPS:" line then
    let parts := pySplit ',' line
    if 3 ≤ parts.length then
      let d := { d with operator := stripQ (parts.getD 2 "") }
      if 4 ≤ parts.length then
        { d with operator_mcc_mnc := stripQ (parts.getD 3 "") }
      else d
    else d
  else d

/-- Body of the AT+CGATT? loop of `_extract_auth_info`. -/
def cgattStep (d : NetworkData) (line : String) : NetworkData :=
  if pyStartsWith "+CGATT:" line then
    let state := pyStrip ((pySplitOnce ':' line).getD 1 "")
    { d with attach_state := if state = "1" then "ATTACHED" else "DETACHED" }
  else d

/-- Method `_extract_auth_info` of modi.py, applied to the three
auth-query responses. -/
def extract_auth_info (cpin cops cgatt : List String) (d : NetworkData) : NetworkData :=
  let d := cpin.foldl cpinStep d
  let d := cops.foldl copsStep d
  cgatt.foldl cgattStep d

/-!
Neighbor-cell decoder: method `_extract_neighbor_cells`.  Each matching line
is classified by substring containment (LTE, then WCDMA, then 5G) and parsed
into a field map inside a try/except IndexError; the Python dict literal is
built atomically, so a failing index yields no entry at all, and an
unclassified line contributes the empty dict, which is skipped.
-/

/-- Per-line neighbor-cell parse of `_extract_neighbor_cells`: `none` exactly
when the loop body leaves `cell_info` empty (no marker, no matching
technology, or a caught IndexError). -/
def parse_neighbor_line (line : String) : Option (List (String × String)) :=
  if pyIn "+QENG: \"neighbourcell" line then
    let parts := pySplit ',' line
    if pyIn "LTE" line then
      match parts[2]?, parts[3]?, parts[4]?, parts[5]?, parts[6]?, parts[7]? with
      | some p2, some p3, some p4, some p5, some p6, some p7 =>
        some [("tech", "LTE"), ("earfcn", stripQ p2), ("pci", stripQ p3),
              ("rsrq", stripQ p4), ("rsrp", stripQ p5), ("rssi", stripQ p6),
              ("sinr", stripQ p7), ("srxlev", condGet parts 8)]
      | _, _, _, _, _, _ => none
    else if pyIn "WCDMA" line then
      match parts[2]?, parts[5]?, parts[6]?, parts[7]? with
      | some p2, some p5, some p6, some p7 =>
        some [("tech", "WCDMA"), ("uarfcn", stripQ p2), ("psc", stripQ p5),
              ("rscp", stripQ p6), ("ecio", stripQ p7), ("srxlev", condGet parts 8)]
      | _, _, _, _ => none
    else if pyIn "5G" line then
      match parts[2]?, parts[3]?, parts[4]?, parts[5]? with
      | some p2, some p3, some p4, some p5 =>
        some [("tech", "5G"), ("arfcn", stripQ p2), ("pci", stripQ p3),
              ("rsrp", stripQ p4), ("rsrq", stripQ p5), ("sinr", condGet parts 6)]
      | _, _, _, _ => none
    else none
  else none

/-- The `neighbor_cells` list accumulated by `_extract_neighbor_cells`. -/
def parseNeighborList (lines : List String) : List (List (String × String)) :=
  lines.filterMap parse_neighbor_line

/-- The `rsrp_values` list of `_extract_neighbor_cells`: per entry, the rsrp
field (falling back to rscp, then the empty string), kept when nonempty,
not the literal N/A, and parsed by `int`, whose ValueError is caught. -/
def neighborStrengths (cells : List (List (String × String))) : List Int :=
  cells.filterMap (fun cell =>
    let rsrp := pyDictGet cell "rsrp" (pyDictGet cell "rscp" "")
    if rsrp ≠ "" && rsrp ≠ "N/A" then pyToInt? rsrp else none)

/-- Method `_extract_neighbor_cells` of modi.py, applied to the response of
the neighbour-cell query. -/
def extract_neighbor_cells (lines : List String) (d : NetworkData) : NetworkData :=
  let cells := parseNeighborList lines
  let d := { d with neighbor_count := cells.length }
  let d :=
    if cells.isEmpty then d
    else
      match neighborStrengths cells with
      | [] => d
      | x :: xs => { d with best_neighbor_rsrp := toString (xs.foldl max x) }
  { d with neighbor_cells_json := if cells.isEmpty then "" else jsonDumps cells }

/-!
Supplementary-metrics decoder: method `_extract_signal_metrics`, the AT+CSQ
loop and the AT+QCAINFO accumulation joined with a semicolon separator.
-/

/-- Body of the AT+CSQ loop of `_extract_signal_metrics`. -/
def csqStep (d : NetworkData) (line : String) : NetworkData :=
  if pyStartsWith "+CSQ:" line then
    let parts := pySplit ',' (pyStrip ((pySplitOnce ':' line).getD 1 ""))
    if 2 ≤ parts.length then
      { d with csq_rssi := pyStrip (parts.getD 0 ""), csq_ber := pyStrip (parts.getD 1 "") }
    else d
  else d

/-- Body of the AT+QCAINFO accumulation loop of `_extract_signal_metrics`. -/
def qcaStep (acc : List String) (line : String) : List String :=
  if pyStartsWith "+QCAINFO:" line then
    acc ++ [pyStrip ((pySplitOnce ':' line).getD 1 "")]
  else acc

/-- Method `_extract_signal_metrics` of modi.py, applied to the AT+CSQ and
AT+QCAINFO responses. -/
def extract_signal_metrics (csq qca : List String) (d : NetworkData) : NetworkData :=
  let d := csq.foldl csqStep d
  let ca := qca.foldl qcaStep []
  { d with ca_info := if ca.isEmpty then "" else String.intercalate "; " ca }

/-!
Record assembler: method `extract_all_data`.  The command channel is
abstracted to the eleven response line lists the queries return, and the
timestamp to the string the clock produces.
-/

/-- The eleven query responses one sampling cycle consumes. -/
structure Responses where
  serving : List String := []
  creg : List String := []
  cgreg : List String := []
  cereg : List String := []
  c5greg : List String := []
  cpin : List String := []
  cops : List String := []
  cgatt : List String := []
  neighbour : List String := []
  csq : List String := []
  qcainfo : List String := []

/-- A cycle in which every query returned no lines. -/
def Responses.empty : Responses := {}

/-- Method `extract_all_data` of modi.py: fresh record, timestamp, then the
five decoders in the fixed source order. -/
def extract_all_data (ts : String) (rs : Responses) : NetworkData :=
  let d := { NetworkData.init with timestamp := ts }
  let d := extract_serving_cell rs.serving d
  let d := extract_nas_states rs.creg rs.cgreg rs.cereg rs.c5greg d
  let d := extract_auth_info rs.cpin rs.cops rs.cgatt d
  let d := extract_neighbor_cells rs.neighbour d
  extract_signal_metrics rs.csq rs.qcainfo d

/-!
Exception model.  The pure decoders above use total list access
(`getD`, `condGet`) at the spots where Python indexes bare lists under a
length guard.  To show the guards suffice — no IndexError escapes a decoder
— each decoder body is restated in `Except Unit`, with every unprotected
Python list access an explicit `pyGet` that raises when out of bounds, and
proved equal to `.ok` of the pure decoder on every input.  The four
technology-specific serving parsers and the neighbor entry parse already
carry their try/except semantics (`tryAssign`, the all-or-nothing entry
`Option`), so their fallibility never leaves them.
-/

/-- Bare Python list indexing: raises IndexError out of bounds. -/
def pyGet (l : List String) (i : Nat) : Except Unit String :=
  match l[i]? with
  | some v => .ok v
  | none => .error ()

/-- Exception-aware body of the `_extract_serving_cell` loop. -/
def servingStepE (d : NetworkData) (line : String) : Except Unit NetworkData :=
  if pyStartsWith "+QENG: \"servingcell\"" line then
    let parts := pySplit ',' line
    if 3 ≤ parts.length then do
      let p1 ← pyGet parts 1
      let p2 ← pyGet parts 2
      let d := { d with rrc_state := stripQ p1, technology := stripQ p2, cell_type := "serving" }
      if pyIn "LTE" d.technology then pure (parse_lte_serving parts d)
      else if pyIn "NR5G-SA" d.technology then pure (parse_nr5g_sa_serving parts d)
      else if pyIn "NR5G-NSA" d.technology then pure (parse_nr5g_nsa_serving parts d)
      else if pyIn "WCDMA" d.technology then pure (parse_wcdma_serving parts d)
      else pure d
    else pure d
  else if pyStartsWith "+QENG: \"LTE\"" line || pyStartsWith "+QENG: \"NR5G-NSA\"" line then
    pure { d with serving_cell_count := d.serving_cell_count + 1 }
  else pure d

/-- Exception-aware body of the AT+CREG? loop. -/
def cregStepE (d : NetworkData) (line : String) : Except Unit NetworkData :=
  if pyStartsWith "+CREG:" line then
    let parts := pySplit ',' line
    if 2 ≤ parts.length then do
      let p1 ← pyGet parts 1
      let d := { d with cs_state := decode_reg_state (pyStrip p1) }
      if 4 ≤ parts.length then do
        let p2 ← pyGet parts 2
        let p3 ← pyGet parts 3
        pure { d with cs_lac := stripQ p2, cs_ci := stripQ p3 }
      else pure d
    else pure d
  else pure d

/-- Exception-aware body of the AT+CGREG? loop. -/
def cgregStepE (d : NetworkData) (line : String) : Except Unit NetworkData :=
  if pyStartsWith "+CGREG:" line then
    let parts := pySplit ',' line
    if 2 ≤ parts.length then do
      let p1 ← pyGet parts 1
      let d := { d with ps_state := decode_reg_state (pyStrip p1) }
      if 4 ≤ parts.length then do
        let p2 ← pyGet parts 2
        let p3 ← pyGet parts 3
        pure { d with ps_lac := stripQ p2, ps_ci := stripQ p3 }
      else pure d
    else pure d
  else pure d

/-- Exception-aware body of the AT+CEREG? loop. -/
def ceregStepE (d : NetworkData) (line : String) : Except Unit NetworkData :=
  if pyStartsWith "+CEREG:" line then
    let parts := pySplit ',' line
    if 2 ≤ parts.length then do
      let p1 ← pyGet parts 1
      let d := { d with eps_state := decode_reg_state (pyStrip p1) }
      if 4 ≤ parts.length then do
        let p2 ← pyGet parts 2
        let p3 ← pyGet parts 3
        pure { d with eps_tac := stripQ p2, eps_ci := stripQ p3 }
      else pure d
    else pure d
  else pure d

/-- Exception-aware body of the AT+C5GREG? loop. -/
def c5gregStepE (d : NetworkData) (line : String) : Except Unit NetworkData :=
  if pyStartsWith "+C5GREG:" line then
    let parts := pySplit ',' line
    if 2 ≤ parts.length then do
      let p1 ← pyGet parts 1
      let d := { d with nr5g_state := decode_reg_state (pyStrip p1) }
      if 4 ≤ parts.length then do
        let p2 ← pyGet parts 2
        let p3 ← pyGet parts 3
        pure { d with nr5g_tac := stripQ p2, nr5g_ci := stripQ p3 }
      else pure d
    else pure d
  else pure d

/-- Exception-aware body of the AT+CPIN? loop. -/
def cpinStepE (d : NetworkData) (line : String) : Except Unit NetworkData :=
  if pyStartsWith "+CPIN:" line then do
    let v ← pyGet (pySplitOnce ':' line) 1
    pure { d with sim_state := pyStrip v }
  else pure d

/-- Exception-aware body of the AT+COPS? loop. -/
def copsStepE (d : NetworkData) (line : String) : Except Unit NetworkData :=
  if pyStartsWith "+COPS:" line then
    let parts := pySplit ',' line
    if 3 ≤ parts.length then do
      let p2 ← pyGet parts 2
      let d := { d with operator := stripQ p2 }
      if 4 ≤ parts.length then do
        let p3 ← pyGet parts 3
        pure { d with operator_mcc_mnc := stripQ p3 }
      else pure d
    else pure d
  else pure d

/-- Exception-aware body of the AT+CGATT? loop. -/
def cgattStepE (d : NetworkData) (line : String) : Except Unit NetworkData :=
  if pyStartsWith "+CGATT:" line then do
    let v ← pyGet (pySplitOnce ':' line) 1
    let state := pyStrip v
    pure { d with attach_state := if state = "1" then "ATTACHED" else "DETACHED" }
  else pure d

/-- Exception-aware body of the AT+CSQ loop. -/
def csqStepE (d : NetworkData) (line : String) : Except Unit NetworkData :=
  if pyStartsWith "+CSQ:" line then do
    let v ← pyGet (pySplitOnce ':' line) 1
    let parts := pySplit ',' (pyStrip v)
    if 2 ≤ parts.length then do
      let p0 ← pyGet parts 0
      let p1 ← pyGet parts 1
      pure { d with csq_rssi := pyStrip p0, csq_ber := pyStrip p1 }
    else pure d
  else pure d

/-- Exception-aware body of the AT+QCAINFO accumulation loop. -/
def qcaStepE (acc : List String) (line : String) : Except Unit (List String) :=
  if pyStartsWith "+QCAINFO:" line then do
    let v ← pyGet (pySplitOnce ':' line) 1
    pure (acc ++ [pyStrip v])
  else pure acc

/-- Exception-aware `_extract_serving_cell`. -/
def extract_serving_cellE (lines : List String) (d : NetworkData) : Except Unit NetworkData :=
  lines.foldlM servingStepE d

/-- Exception-aware `_extract_nas_states`. -/
def extract_nas_statesE (creg cgreg cereg c5greg : List String) (d : NetworkData) :
    Except Unit NetworkData := do
  let d ← creg.foldlM cregStepE d
  let d ← cgreg.foldlM cgregStepE d
  let d ← cereg.foldlM ceregStepE d
  c5greg.foldlM c5gregStepE d

/-- Exception-aware `_extract_auth_info`. -/
def extract_auth_infoE (cpin cops cgatt : List String) (d : NetworkData) :
    Except Unit NetworkData := do
  let d ← cpin.foldlM cpinStepE d
  let d ← cops.foldlM copsStepE d
  cgatt.foldlM cgattStepE d

/-- Exception-aware `_extract_neighbor_cells`: every fallible operation of
its source body sits inside a try/except — the entry parse is the
all-or-nothing `Option` and the `int` conversion is guarded — so the body
never raises past any statement and coincides with the pure decoder. -/
def extract_neighbor_cellsE (lines : List String) (d : NetworkData) : Except Unit NetworkData :=
  pure (extract_neighbor_cells lines d)

/-- Exception-aware `_extract_signal_metrics`. -/
def extract_signal_metricsE (csq qca : List String) (d : NetworkData) :
    Except Unit NetworkData := do
  let d ← csq.foldlM csqStepE d
  let ca ← qca.foldlM qcaStepE []
  pure { d with ca_info := if ca.isEmpty then "" else String.intercalate "; " ca }

/-- Exception-aware `extract_all_data`: the whole sampling cycle with every
unprotected list access of the source explicit. -/
def extract_all_dataE (ts : String) (rs : Responses) : Except Unit NetworkData := do
  let d := { NetworkData.init with timestamp := ts }
  let d ← extract_serving_cellE rs.serving d
  let d ← extract_nas_statesE rs.creg rs.cgreg rs.cereg rs.c5greg d
  let d ← extract_auth_infoE rs.cpin rs.cops rs.cgatt d
  let d ← extract_neighbor_cellsE rs.neighbour d
  extract_signal_metricsE rs.csq rs.qcainfo d

/-!
Write-set analysis.  Each decoder of modi.py writes only into its own group
of record fields.  The groups are made explicit as sub-records with a
projection (`get...`) and an overwrite (`set...`), and each decoder is
proved equal to an action on its own group transported by the overwrite:
`decoder args d = set (action args (get d)) d`.  Disjointness of the five
write sets, the frame property and commutation of the decoders all follow.
-/

/-- The fields written by `_extract_serving_cell` and its four parsers. -/
structure ServingFields where
  rrc_state : String
  cell_type : String
  technology : String
  mcc : String
  mnc : String
  cell_id : String
  pci : String
  tac_lac : String
  earfcn_arfcn : String
  band : String
  bandwidth : String
  scs : String
  rsrp : String
  rsrq : String
  rssi : String
  sinr : String
  cqi : String
  tx_power : String
  serving_cell_count : Nat

/-- The fields written by `_extract_nas_states`. -/
structure NasFields where
  cs_state : String
  cs_lac : String
  cs_ci : String
  ps_state : String
  ps_lac : String
  ps_ci : String
  eps_state : String
  eps_tac : String
  eps_ci : String
  nr5g_state : String
  nr5g_tac : String
  nr5g_ci : String

/-- The fields written by `_extract_auth_info`. -/
structure AuthFields where
  sim_state : String
  operator : String
  operator_mcc_mnc : String
  attach_state : String

/-- The fields written by `_extract_neighbor_cells`. -/
structure NeighborFields where
  neighbor_count : Nat
  best_neighbor_rsrp : String
  neighbor_cells_json : String

/-- The fields written by `_extract_signal_metrics`. -/
structure SignalFields where
  csq_rssi : String
  csq_ber : String
  ca_info : String

/-- Projection onto the serving-cell write set. -/
def getServing (d : NetworkData) : ServingFields :=
  { rrc_state := d.rrc_state, cell_type := d.cell_type, technology := d.technology,
    mcc := d.mcc, mnc := d.mnc, cell_id := d.cell_id, pci := d.pci, tac_lac := d.tac_lac,
    earfcn_arfcn := d.earfcn_arfcn, band := d.band, bandwidth := d.bandwidth, scs := d.scs,
    rsrp := d.rsrp, rsrq := d.rsrq, rssi := d.rssi, sinr := d.sinr, cqi := d.cqi,
    tx_power := d.tx_power, serving_cell_count := d.serving_cell_count }

/-- Overwrite of the serving-cell write set, all other fields untouched. -/
def setServing (g : ServingFields) (d : NetworkData) : NetworkData :=
  { d with
    rrc_state := g.rrc_state, cell_type := g.cell_type, technology := g.technology,
    mcc := g.mcc, mnc := g.mnc, cell_id := g.cell_id, pci := g.pci, tac_lac := g.tac_lac,
    earfcn_arfcn := g.earfcn_arfcn, band := g.band, bandwidth := g.bandwidth, scs := g.scs,
    rsrp := g.rsrp, rsrq := g.rsrq, rssi := g.rssi, sinr := g.sinr, cqi := g.cqi,
    tx_power := g.tx_power, serving_cell_count := g.serving_cell_count }

/-- Projection onto the NAS write set. -/
def getNas (d : NetworkData) : NasFields :=
  { cs_state := d.cs_state, cs_lac := d.cs_lac, cs_ci := d.cs_ci,
    ps_state := d.ps_state, ps_lac := d.ps_lac, ps_ci := d.ps_ci,
    eps_state := d.eps_state, eps_tac := d.eps_tac, eps_ci := d.eps_ci,
    nr5g_state := d.nr5g_state, nr5g_tac := d.nr5g_tac, nr5g_ci := d.nr5g_ci }

/-- Overwrite of the NAS write set, all other fields untouched. -/
def setNas (g : NasFields) (d : NetworkData) : NetworkData :=
  { d with
    cs_state := g.cs_state, cs_lac := g.cs_lac, cs_ci := g.cs_ci,
    ps_state := g.ps_state, ps_lac := g.ps_lac, ps_ci := g.ps_ci,
    eps_state := g.eps_state, eps_tac := g.eps_tac, eps_ci := g.eps_ci,
    nr5g_state := g.nr5g_state, nr5g_tac := g.nr5g_tac, nr5g_ci := g.nr5g_ci }

/-- Projection onto the auth write set. -/
def getAuth (d : NetworkData) : AuthFields :=
  { sim_state := d.sim_state, operator := d.operator,
    operator_mcc_mnc := d.operator_mcc_mnc, attach_state := d.attach_state }

/-- Overwrite of the auth write set, all other fields untouched. -/
def setAuth (g : AuthFields) (d : NetworkData) : NetworkData :=
  { d with
    sim_state := g.sim_state, operator := g.operator,
    operator_mcc_mnc := g.operator_mcc_mnc, attach_state := g.attach_state }

/-- Projection onto the neighbor write set. -/
def getNeighbor (d : NetworkData) : NeighborFields :=
  { neighbor_count := d.neighbor_count, best_neighbor_rsrp := d.best_neighbor_rsrp,
    neighbor_cells_json := d.neighbor_cells_json }

/-- Overwrite of the neighbor write set, all other fields untouched. -/
def setNeighbor (g : NeighborFields) (d : NetworkData) : NetworkData :=
  { d with
    neighbor_count := g.neighbor_count, best_neighbor_rsrp := g.best_neighbor_rsrp,
    neighbor_cells_json := g.neighbor_cells_json }

/-- Projection onto the supplementary-metrics write set. -/
def getSignal (d : NetworkData) : SignalFields :=
  { csq_rssi := d.csq_rssi, csq_ber := d.csq_ber, ca_info := d.ca_info }

/-- Overwrite of the supplementary-metrics write set, all other fields
untouched. -/
def setSignal (g : SignalFields) (d : NetworkData) : NetworkData :=
  { d with csq_rssi := g.csq_rssi, csq_ber := g.csq_ber, ca_info := g.ca_info }

/-- Action of `_parse_lte_serving` on its own field group. -/
def parse_lte_servingF (parts : List String) (g : ServingFields) : ServingFields :=
  if 18 ≤ parts.length then
    let off := if pyStartsWith "+QENG: \"LTE\"" (parts.getD 0 "") then 1 else 0
    tryAssign parts (3 + off) (fun v g => { g with mcc := v }) (
    tryAssign parts (4 + off) (fun v g => { g with mnc := v }) (
    tryAssign parts (5 + off) (fun v g => { g with cell_id := v }) (
    tryAssign parts (6 + off) (fun v g => { g with pci := v }) (
    tryAssign parts (7 + off) (fun v g => { g with earfcn_arfcn := v }) (
    tryAssign parts (8 + off) (fun v g => { g with band := v }) (
    pureAssign parts (9 + off) (fun v g => { g with bandwidth := v }) (
    tryAssign parts (11 + off) (fun v g => { g with tac_lac := v }) (
    tryAssign parts (12 + off) (fun v g => { g with rsrp := v }) (
    tryAssign parts (13 + off) (fun v g => { g with rsrq := v }) (
    tryAssign parts (14 + off) (fun v g => { g with rssi := v }) (
    tryAssign parts (15 + off) (fun v g => { g with sinr := v }) (
    pureAssign parts (16 + off) (fun v g => { g with cqi := v }) (
    pureAssign parts (17 + off) (fun v g => { g with tx_power := v })
    id)))))))))))))
    g
  else g

/-- Action of `_parse_nr5g_sa_serving` on its own field group. -/
def parse_nr5g_sa_servingF (parts : List String) (g : ServingFields) : ServingFields :=
  if 17 ≤ parts.length then
    tryAssign parts 4 (fun v g => { g with mcc := v }) (
    tryAssign parts 5 (fun v g => { g with mnc := v }) (
    tryAssign parts 6 (fun v g => { g with cell_id := v }) (
    tryAssign parts 7 (fun v g => { g with pci := v }) (
    tryAssign parts 8 (fun v g => { g with tac_lac := v }) (
    tryAssign parts 9 (fun v g => { g with earfcn_arfcn := v }) (
    tryAssign parts 10 (fun v g => { g with band := v }) (
    pureAssign parts 11 (fun v g => { g with bandwidth := v }) (
    tryAssign parts 12 (fun v g => { g with rsrp := v }) (
    tryAssign parts 13 (fun v g => { g with rsrq := v }) (
    tryAssign parts 14 (fun v g => { g with sinr := v }) (
    pureAssign parts 15 (fun v g => { g with rssi := v }) (
    pureAssign parts 16 (fun v g => { g with tx_power := v })
    id))))))))))))
    g
  else g

/-- Action of `_parse_nr5g_nsa_serving` on its own field group. -/
def parse_nr5g_nsa_servingF (parts : List String) (g : ServingFields) : ServingFields :=
  if 11 ≤ parts.length then
    tryAssign parts 1 (fun v g => { g with mcc := v }) (
    tryAssign parts 2 (fun v g => { g with mnc := v }) (
    tryAssign parts 3 (fun v g => { g with pci := v }) (
    tryAssign parts 4 (fun v g => { g with rsrp := v }) (
    tryAssign parts 5 (fun v g => { g with sinr := v }) (
    tryAssign parts 6 (fun v g => { g with rsrq := v }) (
    tryAssign parts 7 (fun v g => { g with earfcn_arfcn := v }) (
    tryAssign parts 8 (fun v g => { g with band := v }) (
    pureAssign parts 9 (fun v g => { g with bandwidth := v }) (
    pureAssign parts 10 (fun v g => { g with scs := v })
    id)))))))))
    g
  else g

/-- Action of `_parse_wcdma_serving` on its own field group. -/
def parse_wcdma_servingF (parts : List String) (g : ServingFields) : ServingFields :=
  if 17 ≤ parts.length then
    tryAssign parts 4 (fun v g => { g with mcc := v }) (
    tryAssign parts 5 (fun v g => { g with mnc := v }) (
    tryAssign parts 6 (fun v g => { g with tac_lac := v }) (
    tryAssign parts 7 (fun v g => { g with cell_id := v }) (
    tryAssign parts 8 (fun v g => { g with earfcn_arfcn := v }) (
    tryAssign parts 9 (fun v g => { g with pci := v }) (
    tryAssign parts 11 (fun v g => { g with rsrp := v }) (
    tryAssign parts 12 (fun v g => { g with rsrq := v }) (
    id))))))))
    g
  else g

/-- Action of the serving-cell loop body on its own field group. -/
def servingStepF (g : ServingFields) (line : String) : ServingFields :=
  if pyStartsWith "+QENG: \"servingcell\"" line then
    let parts := pySplit ',' line
    if 3 ≤ parts.length then
      let g := { g with
        rrc_state := stripQ (parts.getD 1 ""),
        technology := stripQ (parts.getD 2 ""),
        cell_type := "serving" }
      if pyIn "LTE" g.technology then parse_lte_servingF parts g
      else if pyIn "NR5G-SA" g.technology then parse_nr5g_sa_servingF parts g
      else if pyIn "NR5G-NSA" g.technology then parse_nr5g_nsa_servingF parts g
      else if pyIn "WCDMA" g.technology then parse_wcdma_servingF parts g
      else g
    else g
  else if pyStartsWith "+QENG: \"LTE\"" line || pyStartsWith "+QENG: \"NR5G-NSA\"" line then
    { g with serving_cell_count := g.serving_cell_count + 1 }
  else g

/-- Action of the serving-cell decoder on its own field group. -/
def extract_serving_cellF (lines : List String) (g : ServingFields) : ServingFields :=
  lines.foldl servingStepF g

/-- Action of the +CREG: loop body on the NAS field group. -/
def cregStepF (g : NasFields) (line : String) : NasFields :=
  if pyStartsWith "+CREG:" line then
    let parts := pySplit ',' line
    if 2 ≤ parts.length then
      let g := { g with cs_state := decode_reg_state (pyStrip (parts.getD 1 "")) }
      if 4 ≤ parts.length then
        { g with cs_lac := stripQ (parts.getD 2 ""), cs_ci := stripQ (parts.getD 3 "") }
      else g
    else g
  else g

/-- Action of the +CGREG: loop body on the NAS field group. -/
def cgregStepF (g : NasFields) (line : String) : NasFields :=
  if pyStartsWith "+CGREG:" line then
    let parts := pySplit ',' line
    if 2 ≤ parts.length then
      let g := { g with ps_state := decode_reg_state (pyStrip (parts.getD 1 "")) }
      if 4 ≤ parts.length then
        { g with ps_lac := stripQ (parts.getD 2 ""), ps_ci := stripQ (parts.getD 3 "") }
      else g
    else g
  else g

/-- Action of the +CEREG: loop body on the NAS field group. -/
def ceregStepF (g : NasFields) (line : String) : NasFields :=
  if pyStartsWith "+CEREG:" line then
    let parts := pySplit ',' line
    if 2 ≤ parts.length then
      let g := { g with eps_state := decode_reg_state (pyStrip (parts.getD 1 "")) }
      if 4 ≤ parts.length then
        { g with eps_tac := stripQ (parts.getD 2 ""), eps_ci := stripQ (parts.getD 3 "") }
      else g
    else g
  else g

/-- Action of the +C5GREG: loop body on the NAS field group. -/
def c5gregStepF (g : NasFields) (line : String) : NasFields :=
  if pyStartsWith "+C5GREG:" line then
    let parts := pySplit ',' line
    if 2 ≤ parts.length then
      let g := { g with nr5g_state := decode_reg_state (pyStrip (parts.getD 1 "")) }
      if 4 ≤ parts.length then
        { g with nr5g_tac := stripQ (parts.getD 2 ""), nr5g_ci := stripQ (parts.getD 3 "") }
      else g
    else g
  else g

/-- Action of the NAS decoder on its own field group. -/
def extract_nas_statesF (creg cgreg cereg c5greg : List String) (g : NasFields) : NasFields :=
  let g := creg.foldl cregStepF g
  let g := cgreg.foldl cgregStepF g
  let g := cereg.foldl ceregStepF g
  c5greg.foldl c5gregStepF g

/-- Action of the AT+CPIN? loop body on the auth field group. -/
def cpinStepF (g : AuthFields) (line : String) : AuthFields :=
  if pyStartsWith "+CPIN:" line then
    { g with sim_state := pyStrip ((pySplitOnce ':' line).getD 1 "") }
  else g

/-- Action of the AT+COPS? loop body on the auth field group. -/
def copsStepF (g : AuthFields) (line : String) : AuthFields :=
  if pyStartsWith "+COPS:" line then
    let parts := pySplit ',' line
    if 3 ≤ parts.length then
      let g := { g with operator := stripQ (parts.getD 2 "") }
      if 4 ≤ parts.length then
        { g with operator_mcc_mnc := stripQ (parts.getD 3 "") }
      else g
    else g
  else g

/-- Action of the AT+CGATT? loop body on the auth field group. -/
def cgattStepF (g : AuthFields) (line : String) : AuthFields :=
  if pyStartsWith "+CGATT:" line then
    let state := pyStrip ((pySplitOnce ':' line).getD 1 "")
    { g with attach_state := if state = "1" then "ATTACHED" else "DETACHED" }
  else g

/-- Action of the auth decoder on its own field group. -/
def extract_auth_infoF (cpin cops cgatt : List String) (g : AuthFields) : AuthFields :=
  let g := cpin.foldl cpinStepF g
  let g := cops.foldl copsStepF g
  cgatt.foldl cgattStepF g

/-- Action of the neighbor decoder on its own field group. -/
def extract_neighbor_cellsF (lines : List String) (g : NeighborFields) : NeighborFields :=
  let cells := parseNeighborList lines
  let g := { g with neighbor_count := cells.length }
  let g :=
    if cells.isEmpty then g
    else
      match neighborStrengths cells with
      | [] => g
      | x :: xs => { g with best_neighbor_rsrp := toString (xs.foldl max x) }
  { g with neighbor_cells_json := if cells.isEmpty then "" else jsonDumps cells }

/-- Action of the AT+CSQ loop body on the supplementary-metrics field group. -/
def csqStepF (g : SignalFields) (line : String) : SignalFields :=
  if pyStartsWith "+CSQ:" line then
    let parts := pySplit ',' (pyStrip ((pySplitOnce ':' line).getD 1 ""))
    if 2 ≤ parts.length then
      { g with csq_rssi := pyStrip (parts.getD 0 ""), csq_ber := pyStrip (parts.getD 1 "") }
    else g
  else g

/-- Action of the supplementary-metrics decoder on its own field group. -/
def extract_signal_metricsF (csq qca : List String) (g : SignalFields) : SignalFields :=
  let g := csq.foldl csqStepF g
  let ca := qca.foldl qcaStep []
  { g with ca_info := if ca.isEmpty then "" else String.intercalate "; " ca }

/-- An EN-DC companion line: counted by `_extract_serving_cell` without a
full record. -/
def isEnDcLine (l : String) : Bool :=
  !pyStartsWith "+QENG: \"servingcell\"" l &&
  (pyStartsWith "+QENG: \"LTE\"" l || pyStartsWith "+QENG: \"NR5G-NSA\"" l)

/-- The number of EN-DC companion lines in one serving-cell response. -/
def enDcCount (lines : List String) : Nat := (lines.filter isEnDcLine).length

/-- The serving-cell line of the first end-to-end scenario of the spec. -/
def scenarioServingLine : String :=
  "+QENG: \"servingcell\",\"CONNECT\",\"LTE\",\"FDD\",\"001\",\"01\",\"1A2B3C\",\"99\",\"1300\",\"3\",\"15\",\"5\",\"-95\",\"-10\",\"-65\",\"12\",\"7\",\"10\""

/-- The EPS registration line of the second end-to-end scenario. -/
def scenarioCeregLine : String := "+CEREG: 1,\"1A2B\",\"3C4D5E\""

/-- Two neighbor lines with numeric strengths -80 (LTE rsrp) and -75
(WCDMA rscp). -/
def twoNeighborLines : List String :=
  ["+QENG: \"neighbourcell\",\"LTE\",\"100\",\"25\",\"-10\",\"-80\",\"-60\",\"5\"",
   "+QENG: \"neighbourcell\",\"WCDMA\",\"10700\",\"x\",\"y\",\"30\",\"-75\",\"-8\""]

/-- A serving-cell line with five tokens, below the LTE minimum. -/
def shortLteLine : String := "+QENG: \"servingcell\",\"SEARCH\",\"LTE\",\"FDD\",\"262\""

/-- A serving-cell line with four tokens, below the NR5G-SA minimum. -/
def shortSaLine : String := "+QENG: \"servingcell\",\"NOCONN\",\"NR5G-SA\",\"TDD\""

/-- A serving-cell line with four tokens, below the NR5G-NSA minimum. -/
def shortNsaLine : String := "+QENG: \"servingcell\",\"CONNECT\",\"NR5G-NSA\",\"x\""

/-- A serving-cell line with four tokens, below the WCDMA minimum. -/
def shortWcdmaLine : String := "+QENG: \"servingcell\",\"CONNECT\",\"WCDMA\",\"x\""

/-- A neighbor line whose one entry parses but reports rsrp N/A. -/
def naNeighborLine : String :=
  "+QENG: \"neighbourcell\",\"LTE\",\"100\",\"25\",\"-10\",\"N/A\",\"-60\",\"5\""

example : pySplit ',' "a,,b" = ["a", "", "b"] := by decide

example : pySplit ',' "" = [""] := by decide

example : stripQ "\"-95\"" = "-95" := by decide

example : pyStrip "  x \t" = "x" := by decide

example : pyStartsWith "+CREG:" "+CREG: 0,1" = true := by decide

example : pyIn "NR5G-SA" "NR5G-NSA" = false := by decide

example : pyIn "LTE" "\"LTE\"" = true := by decide

example : pyToInt? "-95" = some (-95) := by decide

example : pyToInt? "N/A" = none := by decide

example : pyToInt? "" = none := by decide

example : pyToInt? " 1_0 " = some 10 := by decide

example : pySplitOnce ':' "+CGATT: 1" = ["+CGATT", " 1"] := by decide

/-- A fold whose exception-aware step never raises never raises. -/
theorem foldlM_ok {σ α : Type} (f : σ → α → Except Unit σ) (g : σ → α → σ)
    (H : ∀ d a, f d a = .ok (g d a)) :
    ∀ (l : List α) (d : σ), l.foldlM f d = .ok (l.foldl g d) := by
  intro l
  induction l with
  | nil => intro d; rfl
  | cons a as ih =>
    intro d
    simp only [List.foldlM_cons, List.foldl_cons, H, ih]
    rfl

/-- Bare indexing under a sufficient bound returns the defaulted read. -/
theorem pyGet_ok (l : List String) (i : Nat) (h : i < l.length) :
    pyGet l i = .ok (l.getD i "") := by
  unfold pyGet
  rw [List.getElem?_eq_getElem h]
  rw [List.getD_eq_getElem l "" h]

/-- A true prefix contributes all its characters. -/
theorem listIsPrefixOf_subset :
    ∀ (p l : List Char), listIsPrefixOf p l = true → ∀ c, c ∈ p → c ∈ l := by
  intro p
  induction p with
  | nil => intro l _ c hc; cases hc
  | cons a as ih =>
    intro l hp c hc
    cases l with
    | nil => simp [listIsPrefixOf] at hp
    | cons b bs =>
      simp only [listIsPrefixOf, Bool.and_eq_true, decide_eq_true_eq] at hp
      rcases List.mem_cons.mp hc with h | h
      · exact List.mem_cons.mpr (Or.inl (h.trans hp.1))
      · exact List.mem_cons.mpr (Or.inr (ih bs hp.2 c h))

/-- A character present in the list makes the first-occurrence split succeed. -/
theorem splitOnceAux_isSome (c : Char) :
    ∀ l : List Char, c ∈ l → (splitOnceAux c l).isSome = true := by
  intro l
  induction l with
  | nil => intro h; cases h
  | cons x xs ih =>
    intro h
    unfold splitOnceAux
    by_cases hx : x = c
    · simp [hx]
    · rcases List.mem_cons.mp h with h | h
      · exact absurd h.symm hx
      · have := ih h
        simp only [if_neg hx]
        cases hs : splitOnceAux c xs with
        | none => rw [hs] at this; simp at this
        | some ab => cases ab with | mk a b => simp

/-- A line that starts with a marker containing the separator splits into
exactly two parts. -/
theorem pySplitOnce_length_two (c : Char) (p s : String)
    (hc : c ∈ p.toList) (h : pyStartsWith p s = true) :
    (pySplitOnce c s).length = 2 := by
  have hmem : c ∈ s.toList := listIsPrefixOf_subset p.toList s.toList h c hc
  have hsome := splitOnceAux_isSome c s.toList hmem
  unfold pySplitOnce
  cases hs : splitOnceAux c s.toList with
  | none => rw [hs] at hsome; simp at hsome
  | some ab => cases ab with | mk a b => rfl

/-- Sequencing after a successful Except computation. -/
theorem ok_bind {ε α β : Type} (a : α) (f : α → Except ε β) :
    (Except.ok a >>= f) = f a := rfl

/-- The serving-cell loop body never raises. -/
theorem servingStepE_ok (d : NetworkData) (line : String) :
    servingStepE d line = .ok (servingStep d line) := by
  simp only [servingStepE, servingStep]
  by_cases h1 : pyStartsWith "+QENG: \"servingcell\"" line = true
  · rw [if_pos h1, if_pos h1]
    by_cases h2 : 3 ≤ (pySplit ',' line).length
    · have b1 : 1 < (pySplit ',' line).length := by omega
      have b2 : 2 < (pySplit ',' line).length := by omega
      rw [if_pos h2, if_pos h2, pyGet_ok _ _ b1, pyGet_ok _ _ b2]
      simp only [ok_bind]
      by_cases hL : pyIn "LTE" (stripQ ((pySplit ',' line).getD 2 "")) = true
      · rw [if_pos hL, if_pos hL]; rfl
      · rw [if_neg hL, if_neg hL]
        by_cases hS : pyIn "NR5G-SA" (stripQ ((pySplit ',' line).getD 2 "")) = true
        · rw [if_pos hS, if_pos hS]; rfl
        · rw [if_neg hS, if_neg hS]
          by_cases hN : pyIn "NR5G-NSA" (stripQ ((pySplit ',' line).getD 2 "")) = true
          · rw [if_pos hN, if_pos hN]; rfl
          · rw [if_neg hN, if_neg hN]
            by_cases hW : pyIn "WCDMA" (stripQ ((pySplit ',' line).getD 2 "")) = true
            · rw [if_pos hW, if_pos hW]; rfl
            · rw [if_neg hW, if_neg hW]; rfl
    · rw [if_neg h2, if_neg h2]; rfl
  · rw [if_neg h1, if_neg h1]
    by_cases h3 : (pyStartsWith "+QENG: \"LTE\"" line || pyStartsWith "+QENG: \"NR5G-NSA\"" line) = true
    · rw [if_pos h3, if_pos h3]; rfl
    · rw [if_neg h3, if_neg h3]; rfl

/-- The AT+CREG? loop body never raises. -/
theorem cregStepE_ok (d : NetworkData) (line : String) :
    cregStepE d line = .ok (cregStep d line) := by
  simp only [cregStepE, cregStep]
  by_cases h1 : pyStartsWith "+CREG:" line = true
  · rw [if_pos h1, if_pos h1]
    by_cases h2 : 2 ≤ (pySplit ',' line).length
    · have b1 : 1 < (pySplit ',' line).length := by omega
      rw [if_pos h2, if_pos h2, pyGet_ok _ _ b1]
      simp only [ok_bind]
      by_cases h4 : 4 ≤ (pySplit ',' line).length
      · have b2 : 2 < (pySplit ',' line).length := by omega
        have b3 : 3 < (pySplit ',' line).length := by omega
        rw [if_pos h4, if_pos h4, pyGet_ok _ _ b2, pyGet_ok _ _ b3]
        simp only [ok_bind]
        rfl
      · rw [if_neg h4, if_neg h4]; rfl
    · rw [if_neg h2, if_neg h2]; rfl
  · rw [if_neg h1, if_neg h1]; rfl

/-- The AT+CGREG? loop body never raises. -/
theorem cgregStepE_ok (d : NetworkData) (line : String) :
    cgregStepE d line = .ok (cgregStep d line) := by
  simp only [cgregStepE, cgregStep]
  by_cases h1 : pyStartsWith "+CGREG:" line = true
  · rw [if_pos h1, if_pos h1]
    by_cases h2 : 2 ≤ (pySplit ',' line).length
    · have b1 : 1 < (pySplit ',' line).length := by omega
      rw [if_pos h2, if_pos h2, pyGet_ok _ _ b1]
      simp only [ok_bind]
      by_cases h4 : 4 ≤ (pySplit ',' line).length
      · have b2 : 2 < (pySplit ',' line).length := by omega
        have b3 : 3 < (pySplit ',' line).length := by omega
        rw [if_pos h4, if_pos h4, pyGet_ok _ _ b2, pyGet_ok _ _ b3]
        simp only [ok_bind]
        rfl
      · rw [if_neg h4, if_neg h4]; rfl
    · rw [if_neg h2, if_neg h2]; rfl
  · rw [if_neg h1, if_neg h1]; rfl

/-- The AT+CEREG? loop body never raises. -/
theorem ceregStepE_ok (d : NetworkData) (line : String) :
    ceregStepE d line = .ok (ceregStep d line) := by
  simp only [ceregStepE, ceregStep]
  by_cases h1 : pyStartsWith "+CEREG:" line = true
  · rw [if_pos h1, if_pos h1]
    by_cases h2 : 2 ≤ (pySplit ',' line).length
    · have b1 : 1 < (pySplit ',' line).length := by omega
      rw [if_pos h2, if_pos h2, pyGet_ok _ _ b1]
      simp only [ok_bind]
      by_cases h4 : 4 ≤ (pySplit ',' line).length
      · have b2 : 2 < (pySplit ',' line).length := by omega
        have b3 : 3 < (pySplit ',' line).length := by omega
        rw [if_pos h4, if_pos h4, pyGet_ok _ _ b2, pyGet_ok _ _ b3]
        simp only [ok_bind]
        rfl
      · rw [if_neg h4, if_neg h4]; rfl
    · rw [if_neg h2, if_neg h2]; rfl
  · rw [if_neg h1, if_neg h1]; rfl

/-- The AT+C5GREG? loop body never raises. -/
theorem c5gregStepE_ok (d : NetworkData) (line : String) :
    c5gregStepE d line = .ok (c5gregStep d line) := by
  simp only [c5gregStepE, c5gregStep]
  by_cases h1 : pyStartsWith "+C5GREG:" line = true
  · rw [if_pos h1, if_pos h1]
    by_cases h2 : 2 ≤ (pySplit ',' line).length
    · have b1 : 1 < (pySplit ',' line).length := by omega
      rw [if_pos h2, if_pos h2, pyGet_ok _ _ b1]
      simp only [ok_bind]
      by_cases h4 : 4 ≤ (pySplit ',' line).length
      · have b2 : 2 < (pySplit ',' line).length := by omega
        have b3 : 3 < (pySplit ',' line).length := by omega
        rw [if_pos h4, if_pos h4, pyGet_ok _ _ b2, pyGet_ok _ _ b3]
        simp only [ok_bind]
        rfl
      · rw [if_neg h4, if_neg h4]; rfl
    · rw [if_neg h2, if_neg h2]; rfl
  · rw [if_neg h1, if_neg h1]; rfl

/-- The AT+CPIN? loop body never raises: the marker guarantees a colon. -/
theorem cpinStepE_ok (d : NetworkData) (line : String) :
    cpinStepE d line = .ok (cpinStep d line) := by
  simp only [cpinStepE, cpinStep]
  by_cases h1 : pyStartsWith "+CPIN:" line = true
  · rw [if_pos h1, if_pos h1]
    have hl : (pySplitOnce ':' line).length = 2 :=
      pySplitOnce_length_two ':' "+CPIN:" line (by decide) h1
    have b1 : 1 < (pySplitOnce ':' line).length := by omega
    rw [pyGet_ok _ _ b1]
    simp only [ok_bind]
    rfl
  · rw [if_neg h1, if_neg h1]; rfl

/-- The AT+COPS? loop body never raises. -/
theorem copsStepE_ok (d : NetworkData) (line : String) :
    copsStepE d line = .ok (copsStep d line) := by
  simp only [copsStepE, copsStep]
  by_cases h1 : pyStartsWith "+COPS:" line = true
  · rw [if_pos h1, if_pos h1]
    by_cases h2 : 3 ≤ (pySplit ',' line).length
    · have b2 : 2 < (pySplit ',' line).length := by omega
      rw [if_pos h2, if_pos h2, pyGet_ok _ _ b2]
      simp only [ok_bind]
      by_cases h4 : 4 ≤ (pySplit ',' line).length
      · have b3 : 3 < (pySplit ',' line).length := by omega
        rw [if_pos h4, if_pos h4, pyGet_ok _ _ b3]
        simp only [ok_bind]
        rfl
      · rw [if_neg h4, if_neg h4]; rfl
    · rw [if_neg h2, if_neg h2]; rfl
  · rw [if_neg h1, if_neg h1]; rfl

/-- The AT+CGATT? loop body never raises: the marker guarantees a colon. -/
theorem cgattStepE_ok (d : NetworkData) (line : String) :
    cgattStepE d line = .ok (cgattStep d line) := by
  simp only [cgattStepE, cgattStep]
  by_cases h1 : pyStartsWith "+CGATT:" line = true
  · rw [if_pos h1, if_pos h1]
    have hl : (pySplitOnce ':' line).length = 2 :=
      pySplitOnce_length_two ':' "+CGATT:" line (by decide) h1
    have b1 : 1 < (pySplitOnce ':' line).length := by omega
    rw [pyGet_ok _ _ b1]
    simp only [ok_bind]
    rfl
  · rw [if_neg h1, if_neg h1]; rfl

/-- The AT+CSQ loop body never raises. -/
theorem csqStepE_ok (d : NetworkData) (line : String) :
    csqStepE d line = .ok (csqStep d line) := by
  simp only [csqStepE, csqStep]
  by_cases h1 : pyStartsWith "+CSQ:" line = true
  · rw [if_pos h1, if_pos h1]
    have hl : (pySplitOnce ':' line).length = 2 :=
      pySplitOnce_length_two ':' "+CSQ:" line (by decide) h1
    have b1 : 1 < (pySplitOnce ':' line).length := by omega
    rw [pyGet_ok _ _ b1]
    simp only [ok_bind]
    by_cases h2 : 2 ≤ (pySplit ',' (pyStrip ((pySplitOnce ':' line).getD 1 ""))).length
    · have c0 : 0 < (pySplit ',' (pyStrip ((pySplitOnce ':' line).getD 1 ""))).length := by omega
      have c1 : 1 < (pySplit ',' (pyStrip ((pySplitOnce ':' line).getD 1 ""))).length := by omega
      rw [if_pos h2, if_pos h2, pyGet_ok _ _ c0, pyGet_ok _ _ c1]
      simp only [ok_bind]
      rfl
    · rw [if_neg h2, if_neg h2]; rfl
  · rw [if_neg h1, if_neg h1]; rfl

/-- The AT+QCAINFO loop body never raises: the marker guarantees a colon. -/
theorem qcaStepE_ok (acc : List String) (line : String) :
    qcaStepE acc line = .ok (qcaStep acc line) := by
  simp only [qcaStepE, qcaStep]
  by_cases h1 : pyStartsWith "+QCAINFO:" line = true
  · rw [if_pos h1, if_pos h1]
    have hl : (pySplitOnce ':' line).length = 2 :=
      pySplitOnce_length_two ':' "+QCAINFO:" line (by decide) h1
    have b1 : 1 < (pySplitOnce ':' line).length := by omega
    rw [pyGet_ok _ _ b1]
    simp only [ok_bind]
    rfl
  · rw [if_neg h1, if_neg h1]; rfl

/-- The serving-cell decoder never raises. -/
theorem extract_serving_cellE_ok (lines : List String) (d : NetworkData) :
    extract_serving_cellE lines d = .ok (extract_serving_cell lines d) :=
  foldlM_ok servingStepE servingStep servingStepE_ok lines d

/-- The NAS registration decoder never raises. -/
theorem extract_nas_statesE_ok (creg cgreg cereg c5greg : List String) (d : NetworkData) :
    extract_nas_statesE creg cgreg cereg c5greg d =
      .ok (extract_nas_states creg cgreg cereg c5greg d) := by
  simp only [extract_nas_statesE, extract_nas_states]
  rw [foldlM_ok cregStepE cregStep cregStepE_ok]
  simp only [ok_bind]
  rw [foldlM_ok cgregStepE cgregStep cgregStepE_ok]
  simp only [ok_bind]
  rw [foldlM_ok ceregStepE ceregStep ceregStepE_ok]
  simp only [ok_bind]
  rw [foldlM_ok c5gregStepE c5gregStep c5gregStepE_ok]

/-- The auth decoder never raises. -/
theorem extract_auth_infoE_ok (cpin cops cgatt : List String) (d : NetworkData) :
    extract_auth_infoE cpin cops cgatt d = .ok (extract_auth_info cpin cops cgatt d) := by
  simp only [extract_auth_infoE, extract_auth_info]
  rw [foldlM_ok cpinStepE cpinStep cpinStepE_ok]
  simp only [ok_bind]
  rw [foldlM_ok copsStepE copsStep copsStepE_ok]
  simp only [ok_bind]
  rw [foldlM_ok cgattStepE cgattStep cgattStepE_ok]

/-- The neighbor decoder never raises. -/
theorem extract_neighbor_cellsE_ok (lines : List String) (d : NetworkData) :
    extract_neighbor_cellsE lines d = .ok (extract_neighbor_cells lines d) := rfl

/-- The supplementary-metrics decoder never raises. -/
theorem extract_signal_metricsE_ok (csq qca : List String) (d : NetworkData) :
    extract_signal_metricsE csq qca d = .ok (extract_signal_metrics csq qca d) := by
  simp only [extract_signal_metricsE, extract_signal_metrics]
  rw [foldlM_ok csqStepE csqStep csqStepE_ok]
  simp only [ok_bind]
  rw [foldlM_ok qcaStepE qcaStep qcaStepE_ok]
  simp only [ok_bind]
  rfl

/-- The whole sampling cycle never raises and returns the pure record. -/
theorem extract_all_dataE_ok (ts : String) (rs : Responses) :
    extract_all_dataE ts rs = .ok (extract_all_data ts rs) := by
  simp only [extract_all_dataE, extract_all_data]
  rw [extract_serving_cellE_ok]
  simp only [ok_bind]
  rw [extract_nas_statesE_ok]
  simp only [ok_bind]
  rw [extract_auth_infoE_ok]
  simp only [ok_bind]
  rw [extract_neighbor_cellsE_ok]
  simp only [ok_bind]
  rw [extract_signal_metricsE_ok]

/-- Transport of one fallible assignment along a projection pair. -/
theorem tryAssign_shape {G : Type} (get : NetworkData → G) (set : G → NetworkData → NetworkData)
    (hgs : ∀ g d, get (set g d) = g)
    (hss : ∀ a b d, set a (set b d) = set a d)
    (hid : ∀ d, set (get d) d = d)
    (parts : List String) (i : Nat)
    (upd : String → NetworkData → NetworkData) (updF : String → G → G)
    (k : NetworkData → NetworkData) (kF : G → G)
    (hupd : ∀ v d, upd v d = set (updF v (get d)) d)
    (hk : ∀ d, k d = set (kF (get d)) d) :
    ∀ d, tryAssign parts i upd k d = set (tryAssign parts i updF kF (get d)) d := by
  intro d
  unfold tryAssign
  cases parts[i]? with
  | none => exact (hid d).symm
  | some v =>
    show k (upd (stripQ v) d) = set (kF (updF (stripQ v) (get d))) d
    rw [hupd, hk, hgs, hss]

/-- Transport of one guarded assignment along a projection pair. -/
theorem pureAssign_shape {G : Type} (get : NetworkData → G) (set : G → NetworkData → NetworkData)
    (hgs : ∀ g d, get (set g d) = g)
    (hss : ∀ a b d, set a (set b d) = set a d)
    (parts : List String) (i : Nat)
    (upd : String → NetworkData → NetworkData) (updF : String → G → G)
    (k : NetworkData → NetworkData) (kF : G → G)
    (hupd : ∀ v d, upd v d = set (updF v (get d)) d)
    (hk : ∀ d, k d = set (kF (get d)) d) :
    ∀ d, pureAssign parts i upd k d = set (pureAssign parts i updF kF (get d)) d := by
  intro d
  unfold pureAssign
  rw [hupd, hk, hgs, hss]

/-- Transport of a per-line fold along a projection pair. -/
theorem foldl_shape {G : Type} (get : NetworkData → G) (set : G → NetworkData → NetworkData)
    (hgs : ∀ g d, get (set g d) = g)
    (hss : ∀ a b d, set a (set b d) = set a d)
    (hid : ∀ d, set (get d) d = d)
    (step : NetworkData → String → NetworkData) (stepF : G → String → G)
    (hstep : ∀ d l, step d l = set (stepF (get d) l) d) :
    ∀ (ls : List String) (d : NetworkData),
      ls.foldl step d = set (ls.foldl stepF (get d)) d := by
  intro ls
  induction ls with
  | nil => intro d; exact (hid d).symm
  | cons l ls ih =>
    intro d
    simp only [List.foldl_cons]
    rw [ih (step d l), hstep d l, hgs, hss]

/-- The LTE parser only writes serving-cell fields. -/
theorem parse_lte_serving_shape (parts : List String) (d : NetworkData) :
    parse_lte_serving parts d = setServing (parse_lte_servingF parts (getServing d)) d := by
  simp only [parse_lte_serving, parse_lte_servingF]
  by_cases h : 18 ≤ parts.length
  · rw [if_pos h, if_pos h]
    refine tryAssign_shape getServing setServing (fun _ _ => rfl) (fun _ _ _ => rfl) (fun _ => rfl) _ _ _ _ _ _ ?_ ?_ d
    exact fun _ _ => rfl
    refine tryAssign_shape getServing setServing (fun _ _ => rfl) (fun _ _ _ => rfl) (fun _ => rfl) _ _ _ _ _ _ ?_ ?_
    exact fun _ _ => rfl
    refine tryAssign_shape getServing setServing (fun _ _ => rfl) (fun _ _ _ => rfl) (fun _ => rfl) _ _ _ _ _ _ ?_ ?_
    exact fun _ _ => rfl
    refine tryAssign_shape getServing setServing (fun _ _ => rfl) (fun _ _ _ => rfl) (fun _ => rfl) _ _ _ _ _ _ ?_ ?_
    exact fun _ _ => rfl
    refine tryAssign_shape getServing setServing (fun _ _ => rfl) (fun _ _ _ => rfl) (fun _ => rfl) _ _ _ _ _ _ ?_ ?_
    exact fun _ _ => rfl
    refine tryAssign_shape getServing setServing (fun _ _ => rfl) (fun _ _ _ => rfl) (fun _ => rfl) _ _ _ _ _ _ ?_ ?_
    exact fun _ _ => rfl
    refine pureAssign_shape getServing setServing (fun _ _ => rfl) (fun _ _ _ => rfl) _ _ _ _ _ _ ?_ ?_
    exact fun _ _ => rfl
    refine tryAssign_shape getServing setServing (fun _ _ => rfl) (fun _ _ _ => rfl) (fun _ => rfl) _ _ _ _ _ _ ?_ ?_
    exact fun _ _ => rfl
    refine tryAssign_shape getServing setServing (fun _ _ => rfl) (fun _ _ _ => rfl) (fun _ => rfl) _ _ _ _ _ _ ?_ ?_
    exact fun _ _ => rfl
    refine tryAssign_shape getServing setServing (fun _ _ => rfl) (fun _ _ _ => rfl) (fun _ => rfl) _ _ _ _ _ _ ?_ ?_
    exact fun _ _ => rfl
    refine tryAssign_shape getServing setServing (fun _ _ => rfl) (fun _ _ _ => rfl) (fun _ => rfl) _ _ _ _ _ _ ?_ ?_
    exact fun _ _ => rfl
    refine tryAssign_shape getServing setServing (fun _ _ => rfl) (fun _ _ _ => rfl) (fun _ => rfl) _ _ _ _ _ _ ?_ ?_
    exact fun _ _ => rfl
    refine pureAssign_shape getServing setServing (fun _ _ => rfl) (fun _ _ _ => rfl) _ _ _ _ _ _ ?_ ?_
    exact fun _ _ => rfl
    refine pureAssign_shape getServing setServing (fun _ _ => rfl) (fun _ _ _ => rfl) _ _ _ _ _ _ ?_ ?_
    exact fun _ _ => rfl
    exact fun _ => rfl
  · rw [if_neg h, if_neg h]; rfl

/-- The parse_nr5g_sa_serving parser only writes serving-cell fields. -/
theorem parse_nr5g_sa_serving_shape (parts : List String) (d : NetworkData) :
    parse_nr5g_sa_serving parts d = setServing (parse_nr5g_sa_servingF parts (getServing d)) d := by
  simp only [parse_nr5g_sa_serving, parse_nr5g_sa_servingF]
  by_cases h : 17 ≤ parts.length
  · rw [if_pos h, if_pos h]
    refine tryAssign_shape getServing setServing (fun _ _ => rfl) (fun _ _ _ => rfl) (fun _ => rfl) _ _ _ _ _ _ ?_ ?_ d
    exact fun _ _ => rfl
    refine tryAssign_shape getServing setServing (fun _ _ => rfl) (fun _ _ _ => rfl) (fun _ => rfl) _ _ _ _ _ _ ?_ ?_
    exact fun _ _ => rfl
    refine tryAssign_shape getServing setServing (fun _ _ => rfl) (fun _ _ _ => rfl) (fun _ => rfl) _ _ _ _ _ _ ?_ ?_
    exact fun _ _ => rfl
    refine tryAssign_shape getServing setServing (fun _ _ => rfl) (fun _ _ _ => rfl) (fun _ => rfl) _ _ _ _ _ _ ?_ ?_
    exact fun _ _ => rfl
    refine tryAssign_shape getServing setServing (fun _ _ => rfl) (fun _ _ _ => rfl) (fun _ => rfl) _ _ _ _ _ _ ?_ ?_
    exact fun _ _ => rfl
    refine tryAssign_shape getServing setServing (fun _ _ => rfl) (fun _ _ _ => rfl) (fun _ => rfl) _ _ _ _ _ _ ?_ ?_
    exact fun _ _ => rfl
    refine tryAssign_shape getServing setServing (fun _ _ => rfl) (fun _ _ _ => rfl) (fun _ => rfl) _ _ _ _ _ _ ?_ ?_
    exact fun _ _ => rfl
    refine pureAssign_shape getServing setServing (fun _ _ => rfl) (fun _ _ _ => rfl) _ _ _ _ _ _ ?_ ?_
    exact fun _ _ => rfl
    refine tryAssign_shape getServing setServing (fun _ _ => rfl) (fun _ _ _ => rfl) (fun _ => rfl) _ _ _ _ _ _ ?_ ?_
    exact fun _ _ => rfl
    refine tryAssign_shape getServing setServing (fun _ _ => rfl) (fun _ _ _ => rfl) (fun _ => rfl) _ _ _ _ _ _ ?_ ?_
    exact fun _ _ => rfl
    refine tryAssign_shape getServing setServing (fun _ _ => rfl) (fun _ _ _ => rfl) (fun _ => rfl) _ _ _ _ _ _ ?_ ?_
    exact fun _ _ => rfl
    refine pureAssign_shape getServing setServing (fun _ _ => rfl) (fun _ _ _ => rfl) _ _ _ _ _ _ ?_ ?_
    exact fun _ _ => rfl
    refine pureAssign_shape getServing setServing (fun _ _ => rfl) (fun _ _ _ => rfl) _ _ _ _ _ _ ?_ ?_
    exact fun _ _ => rfl
    exact fun _ => rfl
  · rw [if_neg h, if_neg h]; rfl

/-- The parse_nr5g_nsa_serving parser only writes serving-cell fields. -/
theorem parse_nr5g_nsa_serving_shape (parts : List String) (d : NetworkData) :
    parse_nr5g_nsa_serving parts d = setServing (parse_nr5g_nsa_servingF parts (getServing d)) d := by
  simp only [parse_nr5g_nsa_serving, parse_nr5g_nsa_servingF]
  by_cases h : 11 ≤ parts.length
  · rw [if_pos h, if_pos h]
    refine tryAssign_shape getServing setServing (fun _ _ => rfl) (fun _ _ _ => rfl) (fun _ => rfl) _ _ _ _ _ _ ?_ ?_ d
    exact fun _ _ => rfl
    refine tryAssign_shape getServing setServing (fun _ _ => rfl) (fun _ _ _ => rfl) (fun _ => rfl) _ _ _ _ _ _ ?_ ?_
    exact fun _ _ => rfl
    refine tryAssign_shape getServing setServing (fun _ _ => rfl) (fun _ _ _ => rfl) (fun _ => rfl) _ _ _ _ _ _ ?_ ?_
    exact fun _ _ => rfl
    refine tryAssign_shape getServing setServing (fun _ _ => rfl) (fun _ _ _ => rfl) (fun _ => rfl) _ _ _ _ _ _ ?_ ?_
    exact fun _ _ => rfl
    refine tryAssign_shape getServing setServing (fun _ _ => rfl) (fun _ _ _ => rfl) (fun _ => rfl) _ _ _ _ _ _ ?_ ?_
    exact fun _ _ => rfl
    refine tryAssign_shape getServing setServing (fun _ _ => rfl) (fun _ _ _ => rfl) (fun _ => rfl) _ _ _ _ _ _ ?_ ?_
    exact fun _ _ => rfl
    refine tryAssign_shape getServing setServing (fun _ _ => rfl) (fun _ _ _ => rfl) (fun _ => rfl) _ _ _ _ _ _ ?_ ?_
    exact fun _ _ => rfl
    refine tryAssign_shape getServing setServing (fun _ _ => rfl) (fun _ _ _ => rfl) (fun _ => rfl) _ _ _ _ _ _ ?_ ?_
    exact fun _ _ => rfl
    refine pureAssign_shape getServing setServing (fun _ _ => rfl) (fun _ _ _ => rfl) _ _ _ _ _ _ ?_ ?_
    exact fun _ _ => rfl
    refine pureAssign_shape getServing setServing (fun _ _ => rfl) (fun _ _ _ => rfl) _ _ _ _ _ _ ?_ ?_
    exact fun _ _ => rfl
    exact fun _ => rfl
  · rw [if_neg h, if_neg h]; rfl

/-- The parse_wcdma_serving parser only writes serving-cell fields. -/
theorem parse_wcdma_serving_shape (parts : List String) (d : NetworkData) :
    parse_wcdma_serving parts d = setServing (parse_wcdma_servingF parts (getServing d)) d := by
  simp only [parse_wcdma_serving, parse_wcdma_servingF]
  by_cases h : 17 ≤ parts.length
  · rw [if_pos h, if_pos h]
    refine tryAssign_shape getServing setServing (fun _ _ => rfl) (fun _ _ _ => rfl) (fun _ => rfl) _ _ _ _ _ _ ?_ ?_ d
    exact fun _ _ => rfl
    refine tryAssign_shape getServing setServing (fun _ _ => rfl) (fun _ _ _ => rfl) (fun _ => rfl) _ _ _ _ _ _ ?_ ?_
    exact fun _ _ => rfl
    refine tryAssign_shape getServing setServing (fun _ _ => rfl) (fun _ _ _ => rfl) (fun _ => rfl) _ _ _ _ _ _ ?_ ?_
    exact fun _ _ => rfl
    refine tryAssign_shape getServing setServing (fun _ _ => rfl) (fun _ _ _ => rfl) (fun _ => rfl) _ _ _ _ _ _ ?_ ?_
    exact fun _ _ => rfl
    refine tryAssign_shape getServing setServing (fun _ _ => rfl) (fun _ _ _ => rfl) (fun _ => rfl) _ _ _ _ _ _ ?_ ?_
    exact fun _ _ => rfl
    refine tryAssign_shape getServing setServing (fun _ _ => rfl) (fun _ _ _ => rfl) (fun _ => rfl) _ _ _ _ _ _ ?_ ?_
    exact fun _ _ => rfl
    refine tryAssign_shape getServing setServing (fun _ _ => rfl) (fun _ _ _ => rfl) (fun _ => rfl) _ _ _ _ _ _ ?_ ?_
    exact fun _ _ => rfl
    refine tryAssign_shape getServing setServing (fun _ _ => rfl) (fun _ _ _ => rfl) (fun _ => rfl) _ _ _ _ _ _ ?_ ?_
    exact fun _ _ => rfl
    exact fun _ => rfl
  · rw [if_neg h, if_neg h]; rfl

/-- The serving-cell loop body only writes serving-cell fields. -/
theorem servingStep_shape (d : NetworkData) (line : String) :
    servingStep d line = setServing (servingStepF (getServing d) line) d := by
  simp only [servingStep, servingStepF]
  by_cases h1 : pyStartsWith "+QENG: \"servingcell\"" line = true
  · rw [if_pos h1, if_pos h1]
    by_cases h2 : 3 ≤ (pySplit ',' line).length
    · rw [if_pos h2, if_pos h2]
      by_cases hL : pyIn "LTE" (stripQ ((pySplit ',' line).getD 2 "")) = true
      · rw [if_pos hL, if_pos hL, parse_lte_serving_shape]; rfl
      · rw [if_neg hL, if_neg hL]
        by_cases hS : pyIn "NR5G-SA" (stripQ ((pySplit ',' line).getD 2 "")) = true
        · rw [if_pos hS, if_pos hS, parse_nr5g_sa_serving_shape]; rfl
        · rw [if_neg hS, if_neg hS]
          by_cases hN : pyIn "NR5G-NSA" (stripQ ((pySplit ',' line).getD 2 "")) = true
          · rw [if_pos hN, if_pos hN, parse_nr5g_nsa_serving_shape]; rfl
          · rw [if_neg hN, if_neg hN]
            by_cases hW : pyIn "WCDMA" (stripQ ((pySplit ',' line).getD 2 "")) = true
            · rw [if_pos hW, if_pos hW, parse_wcdma_serving_shape]; rfl
            · rw [if_neg hW, if_neg hW]; rfl
    · rw [if_neg h2, if_neg h2]; rfl
  · rw [if_neg h1, if_neg h1]
    by_cases h3 : (pyStartsWith "+QENG: \"LTE\"" line || pyStartsWith "+QENG: \"NR5G-NSA\"" line) = true
    · rw [if_pos h3, if_pos h3]; rfl
    · rw [if_neg h3, if_neg h3]; rfl

/-- The serving-cell decoder writes only serving-cell fields and reads only
them and its own input lines. -/
theorem extract_serving_cell_shape (lines : List String) (d : NetworkData) :
    extract_serving_cell lines d = setServing (extract_serving_cellF lines (getServing d)) d :=
  foldl_shape getServing setServing (fun _ _ => rfl) (fun _ _ _ => rfl) (fun _ => rfl)
    servingStep servingStepF servingStep_shape lines d

/-- The +CREG: loop body only writes NAS fields. -/
theorem cregStep_shape (d : NetworkData) (line : String) :
    cregStep d line = setNas (cregStepF (getNas d) line) d := by
  simp only [cregStep, cregStepF]
  by_cases h1 : pyStartsWith "+CREG:" line = true
  · rw [if_pos h1, if_pos h1]
    by_cases h2 : 2 ≤ (pySplit ',' line).length
    · rw [if_pos h2, if_pos h2]
      by_cases h4 : 4 ≤ (pySplit ',' line).length
      · rw [if_pos h4, if_pos h4]; rfl
      · rw [if_neg h4, if_neg h4]; rfl
    · rw [if_neg h2, if_neg h2]; rfl
  · rw [if_neg h1, if_neg h1]; rfl

/-- The +CGREG: loop body only writes NAS fields. -/
theorem cgregStep_shape (d : NetworkData) (line : String) :
    cgregStep d line = setNas (cgregStepF (getNas d) line) d := by
  simp only [cgregStep, cgregStepF]
  by_cases h1 : pyStartsWith "+CGREG:" line = true
  · rw [if_pos h1, if_pos h1]
    by_cases h2 : 2 ≤ (pySplit ',' line).length
    · rw [if_pos h2, if_pos h2]
      by_cases h4 : 4 ≤ (pySplit ',' line).length
      · rw [if_pos h4, if_pos h4]; rfl
      · rw [if_neg h4, if_neg h4]; rfl
    · rw [if_neg h2, if_neg h2]; rfl
  · rw [if_neg h1, if_neg h1]; rfl

/-- The +CEREG: loop body only writes NAS fields. -/
theorem ceregStep_shape (d : NetworkData) (line : String) :
    ceregStep d line = setNas (ceregStepF (getNas d) line) d := by
  simp only [ceregStep, ceregStepF]
  by_cases h1 : pyStartsWith "+CEREG:" line = true
  · rw [if_pos h1, if_pos h1]
    by_cases h2 : 2 ≤ (pySplit ',' line).length
    · rw [if_pos h2, if_pos h2]
      by_cases h4 : 4 ≤ (pySplit ',' line).length
      · rw [if_pos h4, if_pos h4]; rfl
      · rw [if_neg h4, if_neg h4]; rfl
    · rw [if_neg h2, if_neg h2]; rfl
  · rw [if_neg h1, if_neg h1]; rfl

/-- The +C5GREG: loop body only writes NAS fields. -/
theorem c5gregStep_shape (d : NetworkData) (line : String) :
    c5gregStep d line = setNas (c5gregStepF (getNas d) line) d := by
  simp only [c5gregStep, c5gregStepF]
  by_cases h1 : pyStartsWith "+C5GREG:" line = true
  · rw [if_pos h1, if_pos h1]
    by_cases h2 : 2 ≤ (pySplit ',' line).length
    · rw [if_pos h2, if_pos h2]
      by_cases h4 : 4 ≤ (pySplit ',' line).length
      · rw [if_pos h4, if_pos h4]; rfl
      · rw [if_neg h4, if_neg h4]; rfl
    · rw [if_neg h2, if_neg h2]; rfl
  · rw [if_neg h1, if_neg h1]; rfl

/-- The NAS decoder writes only NAS fields and reads only them and its own
input lines. -/
theorem extract_nas_states_shape (creg cgreg cereg c5greg : List String) (d : NetworkData) :
    extract_nas_states creg cgreg cereg c5greg d =
      setNas (extract_nas_statesF creg cgreg cereg c5greg (getNas d)) d := by
  simp only [extract_nas_states, extract_nas_statesF]
  rw [foldl_shape getNas setNas (fun _ _ => rfl) (fun _ _ _ => rfl) (fun _ => rfl) cregStep cregStepF cregStep_shape]
  rw [foldl_shape getNas setNas (fun _ _ => rfl) (fun _ _ _ => rfl) (fun _ => rfl) cgregStep cgregStepF cgregStep_shape]
  rw [foldl_shape getNas setNas (fun _ _ => rfl) (fun _ _ _ => rfl) (fun _ => rfl) ceregStep ceregStepF ceregStep_shape]
  rw [foldl_shape getNas setNas (fun _ _ => rfl) (fun _ _ _ => rfl) (fun _ => rfl) c5gregStep c5gregStepF c5gregStep_shape]
  rfl

/-- The AT+CPIN? loop body only writes auth fields. -/
theorem cpinStep_shape (d : NetworkData) (line : String) :
    cpinStep d line = setAuth (cpinStepF (getAuth d) line) d := by
  simp only [cpinStep, cpinStepF]
  by_cases h1 : pyStartsWith "+CPIN:" line = true
  · rw [if_pos h1, if_pos h1]; rfl
  · rw [if_neg h1, if_neg h1]; rfl

/-- The AT+COPS? loop body only writes auth fields. -/
theorem copsStep_shape (d : NetworkData) (line : String) :
    copsStep d line = setAuth (copsStepF (getAuth d) line) d := by
  simp only [copsStep, copsStepF]
  by_cases h1 : pyStartsWith "+COPS:" line = true
  · rw [if_pos h1, if_pos h1]
    by_cases h2 : 3 ≤ (pySplit ',' line).length
    · rw [if_pos h2, if_pos h2]
      by_cases h4 : 4 ≤ (pySplit ',' line).length
      · rw [if_pos h4, if_pos h4]; rfl
      · rw [if_neg h4, if_neg h4]; rfl
    · rw [if_neg h2, if_neg h2]; rfl
  · rw [if_neg h1, if_neg h1]; rfl

/-- The AT+CGATT? loop body only writes auth fields. -/
theorem cgattStep_shape (d : NetworkData) (line : String) :
    cgattStep d line = setAuth (cgattStepF (getAuth d) line) d := by
  simp only [cgattStep, cgattStepF]
  by_cases h1 : pyStartsWith "+CGATT:" line = true
  · rw [if_pos h1, if_pos h1]; rfl
  · rw [if_neg h1, if_neg h1]; rfl

/-- The auth decoder writes only auth fields and reads only them and its own
input lines. -/
theorem extract_auth_info_shape (cpin cops cgatt : List String) (d : NetworkData) :
    extract_auth_info cpin cops cgatt d =
      setAuth (extract_auth_infoF cpin cops cgatt (getAuth d)) d := by
  simp only [extract_auth_info, extract_auth_infoF]
  rw [foldl_shape getAuth setAuth (fun _ _ => rfl) (fun _ _ _ => rfl) (fun _ => rfl) cpinStep cpinStepF cpinStep_shape]
  rw [foldl_shape getAuth setAuth (fun _ _ => rfl) (fun _ _ _ => rfl) (fun _ => rfl) copsStep copsStepF copsStep_shape]
  rw [foldl_shape getAuth setAuth (fun _ _ => rfl) (fun _ _ _ => rfl) (fun _ => rfl) cgattStep cgattStepF cgattStep_shape]
  rfl

/-- The neighbor decoder writes only neighbor fields and reads only them and
its own input lines. -/
theorem extract_neighbor_cells_shape (lines : List String) (d : NetworkData) :
    extract_neighbor_cells lines d = setNeighbor (extract_neighbor_cellsF lines (getNeighbor d)) d := by
  simp only [extract_neighbor_cells, extract_neighbor_cellsF]
  by_cases hE : (parseNeighborList lines).isEmpty = true
  · simp only [if_pos hE]; rfl
  · simp only [if_neg hE]
    cases hS : neighborStrengths (parseNeighborList lines) with
    | nil => rfl
    | cons x xs => rfl

/-- The AT+CSQ loop body only writes supplementary-metrics fields. -/
theorem csqStep_shape (d : NetworkData) (line : String) :
    csqStep d line = setSignal (csqStepF (getSignal d) line) d := by
  simp only [csqStep, csqStepF]
  by_cases h1 : pyStartsWith "+CSQ:" line = true
  · rw [if_pos h1, if_pos h1]
    by_cases h2 : 2 ≤ (pySplit ',' (pyStrip ((pySplitOnce ':' line).getD 1 ""))).length
    · rw [if_pos h2, if_pos h2]; rfl
    · rw [if_neg h2, if_neg h2]; rfl
  · rw [if_neg h1, if_neg h1]; rfl

/-- The supplementary-metrics decoder writes only its own fields and reads
only them and its own input lines. -/
theorem extract_signal_metrics_shape (csq qca : List String) (d : NetworkData) :
    extract_signal_metrics csq qca d =
      setSignal (extract_signal_metricsF csq qca (getSignal d)) d := by
  simp only [extract_signal_metrics, extract_signal_metricsF]
  rw [foldl_shape getSignal setSignal (fun _ _ => rfl) (fun _ _ _ => rfl) (fun _ => rfl) csqStep csqStepF csqStep_shape]
  rfl

/-- The serving and nas decoders commute. -/
theorem comm_serving_nas (ls l1 l2 l3 l4 : List String) (d : NetworkData) :
    extract_serving_cell ls (extract_nas_states l1 l2 l3 l4 d) = extract_nas_states l1 l2 l3 l4 (extract_serving_cell ls d) := by
  simp only [extract_serving_cell_shape, extract_nas_states_shape]
  rfl

/-- The serving and auth decoders commute. -/
theorem comm_serving_auth (ls m1 m2 m3 : List String) (d : NetworkData) :
    extract_serving_cell ls (extract_auth_info m1 m2 m3 d) = extract_auth_info m1 m2 m3 (extract_serving_cell ls d) := by
  simp only [extract_serving_cell_shape, extract_auth_info_shape]
  rfl

/-- The serving and neighbor decoders commute. -/
theorem comm_serving_neighbor (ls nb : List String) (d : NetworkData) :
    extract_serving_cell ls (extract_neighbor_cells nb d) = extract_neighbor_cells nb (extract_serving_cell ls d) := by
  simp only [extract_serving_cell_shape, extract_neighbor_cells_shape]
  rfl

/-- The serving and signal decoders commute. -/
theorem comm_serving_signal (ls q1 q2 : List String) (d : NetworkData) :
    extract_serving_cell ls (extract_signal_metrics q1 q2 d) = extract_signal_metrics q1 q2 (extract_serving_cell ls d) := by
  simp only [extract_serving_cell_shape, extract_signal_metrics_shape]
  rfl

/-- The nas and auth decoders commute. -/
theorem comm_nas_auth (l1 l2 l3 l4 m1 m2 m3 : List String) (d : NetworkData) :
    extract_nas_states l1 l2 l3 l4 (extract_auth_info m1 m2 m3 d) = extract_auth_info m1 m2 m3 (extract_nas_states l1 l2 l3 l4 d) := by
  simp only [extract_nas_states_shape, extract_auth_info_shape]
  rfl

/-- The nas and neighbor decoders commute. -/
theorem comm_nas_neighbor (l1 l2 l3 l4 nb : List String) (d : NetworkData) :
    extract_nas_states l1 l2 l3 l4 (extract_neighbor_cells nb d) = extract_neighbor_cells nb (extract_nas_states l1 l2 l3 l4 d) := by
  simp only [extract_nas_states_shape, extract_neighbor_cells_shape]
  rfl

/-- The nas and signal decoders commute. -/
theorem comm_nas_signal (l1 l2 l3 l4 q1 q2 : List String) (d : NetworkData) :
    extract_nas_states l1 l2 l3 l4 (extract_signal_metrics q1 q2 d) = extract_signal_metrics q1 q2 (extract_nas_states l1 l2 l3 l4 d) := by
  simp only [extract_nas_states_shape, extract_signal_metrics_shape]
  rfl

/-- The auth and neighbor decoders commute. -/
theorem comm_auth_neighbor (m1 m2 m3 nb : List String) (d : NetworkData) :
    extract_auth_info m1 m2 m3 (extract_neighbor_cells nb d) = extract_neighbor_cells nb (extract_auth_info m1 m2 m3 d) := by
  simp only [extract_auth_info_shape, extract_neighbor_cells_shape]
  rfl

/-- The auth and signal decoders commute. -/
theorem comm_auth_signal (m1 m2 m3 q1 q2 : List String) (d : NetworkData) :
    extract_auth_info m1 m2 m3 (extract_signal_metrics q1 q2 d) = extract_signal_metrics q1 q2 (extract_auth_info m1 m2 m3 d) := by
  simp only [extract_auth_info_shape, extract_signal_metrics_shape]
  rfl

/-- The neighbor and signal decoders commute. -/
theorem comm_neighbor_signal (nb q1 q2 : List String) (d : NetworkData) :
    extract_neighbor_cells nb (extract_signal_metrics q1 q2 d) = extract_signal_metrics q1 q2 (extract_neighbor_cells nb d) := by
  simp only [extract_neighbor_cells_shape, extract_signal_metrics_shape]
  rfl

/-- A projection untouched by one fallible assignment. -/
theorem tryAssign_preserve {σ α : Type} (π : σ → α) (parts : List String) (i : Nat)
    (upd : String → σ → σ) (k : σ → σ)
    (hupd : ∀ v d, π (upd v d) = π d) (hk : ∀ d, π (k d) = π d) :
    ∀ d, π (tryAssign parts i upd k d) = π d := by
  intro d
  unfold tryAssign
  cases parts[i]? with
  | none => rfl
  | some v =>
    show π (k (upd (stripQ v) d)) = π d
    rw [hk, hupd]

/-- A projection untouched by one guarded assignment. -/
theorem pureAssign_preserve {σ α : Type} (π : σ → α) (parts : List String) (i : Nat)
    (upd : String → σ → σ) (k : σ → σ)
    (hupd : ∀ v d, π (upd v d) = π d) (hk : ∀ d, π (k d) = π d) :
    ∀ d, π (pureAssign parts i upd k d) = π d := by
  intro d
  unfold pureAssign
  rw [hk, hupd]

/-- The LTE parser never changes the concurrent serving-cell counter. -/
theorem parse_lte_serving_count (parts : List String) (d : NetworkData) :
    (parse_lte_serving parts d).serving_cell_count = d.serving_cell_count := by
  simp only [parse_lte_serving]
  by_cases h : 18 ≤ parts.length
  · rw [if_pos h]
    refine tryAssign_preserve NetworkData.serving_cell_count _ _ _ _ ?_ ?_ d
    exact fun _ _ => rfl
    refine tryAssign_preserve NetworkData.serving_cell_count _ _ _ _ ?_ ?_
    exact fun _ _ => rfl
    refine tryAssign_preserve NetworkData.serving_cell_count _ _ _ _ ?_ ?_
    exact fun _ _ => rfl
    refine tryAssign_preserve NetworkData.serving_cell_count _ _ _ _ ?_ ?_
    exact fun _ _ => rfl
    refine tryAssign_preserve NetworkData.serving_cell_count _ _ _ _ ?_ ?_
    exact fun _ _ => rfl
    refine tryAssign_preserve NetworkData.serving_cell_count _ _ _ _ ?_ ?_
    exact fun _ _ => rfl
    refine pureAssign_preserve NetworkData.serving_cell_count _ _ _ _ ?_ ?_
    exact fun _ _ => rfl
    refine tryAssign_preserve NetworkData.serving_cell_count _ _ _ _ ?_ ?_
    exact fun _ _ => rfl
    refine tryAssign_preserve NetworkData.serving_cell_count _ _ _ _ ?_ ?_
    exact fun _ _ => rfl
    refine tryAssign_preserve NetworkData.serving_cell_count _ _ _ _ ?_ ?_
    exact fun _ _ => rfl
    refine tryAssign_preserve NetworkData.serving_cell_count _ _ _ _ ?_ ?_
    exact fun _ _ => rfl
    refine tryAssign_preserve NetworkData.serving_cell_count _ _ _ _ ?_ ?_
    exact fun _ _ => rfl
    refine pureAssign_preserve NetworkData.serving_cell_count _ _ _ _ ?_ ?_
    exact fun _ _ => rfl
    refine pureAssign_preserve NetworkData.serving_cell_count _ _ _ _ ?_ ?_
    exact fun _ _ => rfl
    exact fun _ => rfl
  · rw [if_neg h]

/-- The NR5G_SA parser never changes the concurrent serving-cell counter. -/
theorem parse_nr5g_sa_serving_count (parts : List String) (d : NetworkData) :
    (parse_nr5g_sa_serving parts d).serving_cell_count = d.serving_cell_count := by
  simp only [parse_nr5g_sa_serving]
  by_cases h : 17 ≤ parts.length
  · rw [if_pos h]
    refine tryAssign_preserve NetworkData.serving_cell_count _ _ _ _ ?_ ?_ d
    exact fun _ _ => rfl
    refine tryAssign_preserve NetworkData.serving_cell_count _ _ _ _ ?_ ?_
    exact fun _ _ => rfl
    refine tryAssign_preserve NetworkData.serving_cell_count _ _ _ _ ?_ ?_
    exact fun _ _ => rfl
    refine tryAssign_preserve NetworkData.serving_cell_count _ _ _ _ ?_ ?_
    exact fun _ _ => rfl
    refine tryAssign_preserve NetworkData.serving_cell_count _ _ _ _ ?_ ?_
    exact fun _ _ => rfl
    refine tryAssign_preserve NetworkData.serving_cell_count _ _ _ _ ?_ ?_
    exact fun _ _ => rfl
    refine tryAssign_preserve NetworkData.serving_cell_count _ _ _ _ ?_ ?_
    exact fun _ _ => rfl
    refine pureAssign_preserve NetworkData.serving_cell_count _ _ _ _ ?_ ?_
    exact fun _ _ => rfl
    refine tryAssign_preserve NetworkData.serving_cell_count _ _ _ _ ?_ ?_
    exact fun _ _ => rfl
    refine tryAssign_preserve NetworkData.serving_cell_count _ _ _ _ ?_ ?_
    exact fun _ _ => rfl
    refine tryAssign_preserve NetworkData.serving_cell_count _ _ _ _ ?_ ?_
    exact fun _ _ => rfl
    refine pureAssign_preserve NetworkData.serving_cell_count _ _ _ _ ?_ ?_
    exact fun _ _ => rfl
    refine pureAssign_preserve NetworkData.serving_cell_count _ _ _ _ ?_ ?_
    exact fun _ _ => rfl
    exact fun _ => rfl
  · rw [if_neg h]

/-- The NR5G_NSA parser never changes the concurrent serving-cell counter. -/
theorem parse_nr5g_nsa_serving_count (parts : List String) (d : NetworkData) :
    (parse_nr5g_nsa_serving parts d).serving_cell_count = d.serving_cell_count := by
  simp only [parse_nr5g_nsa_serving]
  by_cases h : 11 ≤ parts.length
  · rw [if_pos h]
    refine tryAssign_preserve NetworkData.serving_cell_count _ _ _ _ ?_ ?_ d
    exact fun _ _ => rfl
    refine tryAssign_preserve NetworkData.serving_cell_count _ _ _ _ ?_ ?_
    exact fun _ _ => rfl
    refine tryAssign_preserve NetworkData.serving_cell_count _ _ _ _ ?_ ?_
    exact fun _ _ => rfl
    refine tryAssign_preserve NetworkData.serving_cell_count _ _ _ _ ?_ ?_
    exact fun _ _ => rfl
    refine tryAssign_preserve NetworkData.serving_cell_count _ _ _ _ ?_ ?_
    exact fun _ _ => rfl
    refine tryAssign_preserve NetworkData.serving_cell_count _ _ _ _ ?_ ?_
    exact fun _ _ => rfl
    refine tryAssign_preserve NetworkData.serving_cell_count _ _ _ _ ?_ ?_
    exact fun _ _ => rfl
    refine tryAssign_preserve NetworkData.serving_cell_count _ _ _ _ ?_ ?_
    exact fun _ _ => rfl
    refine pureAssign_preserve NetworkData.serving_cell_count _ _ _ _ ?_ ?_
    exact fun _ _ => rfl
    refine pureAssign_preserve NetworkData.serving_cell_count _ _ _ _ ?_ ?_
    exact fun _ _ => rfl
    exact fun _ => rfl
  · rw [if_neg h]

/-- The WCDMA parser never changes the concurrent serving-cell counter. -/
theorem parse_wcdma_serving_count (parts : List String) (d : NetworkData) :
    (parse_wcdma_serving parts d).serving_cell_count = d.serving_cell_count := by
  simp only [parse_wcdma_serving]
  by_cases h : 17 ≤ parts.length
  · rw [if_pos h]
    refine tryAssign_preserve NetworkData.serving_cell_count _ _ _ _ ?_ ?_ d
    exact fun _ _ => rfl
    refine tryAssign_preserve NetworkData.serving_cell_count _ _ _ _ ?_ ?_
    exact fun _ _ => rfl
    refine tryAssign_preserve NetworkData.serving_cell_count _ _ _ _ ?_ ?_
    exact fun _ _ => rfl
    refine tryAssign_preserve NetworkData.serving_cell_count _ _ _ _ ?_ ?_
    exact fun _ _ => rfl
    refine tryAssign_preserve NetworkData.serving_cell_count _ _ _ _ ?_ ?_
    exact fun _ _ => rfl
    refine tryAssign_preserve NetworkData.serving_cell_count _ _ _ _ ?_ ?_
    exact fun _ _ => rfl
    refine tryAssign_preserve NetworkData.serving_cell_count _ _ _ _ ?_ ?_
    exact fun _ _ => rfl
    refine tryAssign_preserve NetworkData.serving_cell_count _ _ _ _ ?_ ?_
    exact fun _ _ => rfl
    exact fun _ => rfl
  · rw [if_neg h]

/-- One serving-cell loop step adds one to the counter exactly on EN-DC
companion lines. -/
theorem servingStep_count (d : NetworkData) (l : String) :
    (servingStep d l).serving_cell_count =
      d.serving_cell_count + (if isEnDcLine l then 1 else 0) := by
  simp only [servingStep, isEnDcLine]
  by_cases h1 : pyStartsWith "+QENG: \"servingcell\"" l = true
  · rw [if_pos h1]
    by_cases h2 : 3 ≤ (pySplit ',' l).length
    · rw [if_pos h2]
      by_cases hL : pyIn "LTE" (stripQ ((pySplit ',' l).getD 2 "")) = true
      · rw [if_pos hL, parse_lte_serving_count]; simp [h1]
      · rw [if_neg hL]
        by_cases hS : pyIn "NR5G-SA" (stripQ ((pySplit ',' l).getD 2 "")) = true
        · rw [if_pos hS, parse_nr5g_sa_serving_count]; simp [h1]
        · rw [if_neg hS]
          by_cases hN : pyIn "NR5G-NSA" (stripQ ((pySplit ',' l).getD 2 "")) = true
          · rw [if_pos hN, parse_nr5g_nsa_serving_count]; simp [h1]
          · rw [if_neg hN]
            by_cases hW : pyIn "WCDMA" (stripQ ((pySplit ',' l).getD 2 "")) = true
            · rw [if_pos hW, parse_wcdma_serving_count]; simp [h1]
            · rw [if_neg hW]; simp [h1]
    · rw [if_neg h2]; simp [h1]
  · rw [if_neg h1]
    have hsc : pyStartsWith "+QENG: \"servingcell\"" l = false := by
      cases hb : pyStartsWith "+QENG: \"servingcell\"" l
      · rfl
      · exact absurd hb h1
    by_cases h3 : (pyStartsWith "+QENG: \"LTE\"" l || pyStartsWith "+QENG: \"NR5G-NSA\"" l) = true
    · rw [if_pos h3]; simp [hsc, h3]
    · rw [if_neg h3]
      have h3f : (pyStartsWith "+QENG: \"LTE\"" l || pyStartsWith "+QENG: \"NR5G-NSA\"" l) = false := by
        cases hb : (pyStartsWith "+QENG: \"LTE\"" l || pyStartsWith "+QENG: \"NR5G-NSA\"" l)
        · rfl
        · exact absurd hb h3
      simp [hsc, h3f]

/-- The serving-cell decoder accumulates the counter only over the EN-DC
lines of its own input. -/
theorem extract_serving_cell_count (lines : List String) (d : NetworkData) :
    (extract_serving_cell lines d).serving_cell_count =
      d.serving_cell_count + enDcCount lines := by
  induction lines generalizing d with
  | nil => simp [extract_serving_cell, enDcCount]
  | cons l ls ih =>
    have hcons : enDcCount (l :: ls) = (if isEnDcLine l then 1 else 0) + enDcCount ls := by
      simp only [enDcCount, List.filter_cons]
      by_cases h : isEnDcLine l = true
      · rw [if_pos h, if_pos h]
        simp [Nat.add_comm]
      · rw [if_neg h, if_neg h]
        simp
    simp only [extract_serving_cell, List.foldl_cons] at ih ⊢
    rw [ih (servingStep d l), servingStep_count, hcons]
    omega

/-- The attach state written by the AT+CGATT? loop is governed by the last
matching line; without a matching line it is untouched. -/
theorem foldl_cgatt_last (lines : List String) :
    (∀ (d : NetworkData) (l : String),
      (lines.filter (fun x => pyStartsWith "+CGATT:" x)).getLast? = some l →
      (lines.foldl cgattStep d).attach_state =
        (if pyStrip ((pySplitOnce ':' l).getD 1 "") = "1" then "ATTACHED" else "DETACHED")) ∧
    (∀ d : NetworkData,
      (lines.filter (fun x => pyStartsWith "+CGATT:" x)).getLast? = none →
      (lines.foldl cgattStep d).attach_state = d.attach_state) := by
  induction lines using List.reverseRecOn with
  | nil => exact ⟨fun d l h => by simp at h, fun d _ => rfl⟩
  | append_singleton ls a ih =>
    constructor
    · intro d l h
      rw [List.foldl_append, List.foldl_cons, List.foldl_nil]
      by_cases ha : pyStartsWith "+CGATT:" a = true
      · rw [List.filter_append, List.filter_cons, if_pos ha, List.filter_nil,
           List.getLast?_append_cons] at h
        simp only [List.getLast?_singleton] at h
        cases h
        simp only [cgattStep]
        rw [if_pos ha]
      · rw [List.filter_append, List.filter_cons, if_neg ha, List.filter_nil,
           List.append_nil] at h
        have hstep : cgattStep (List.foldl cgattStep d ls) a = List.foldl cgattStep d ls := by
          simp only [cgattStep]
          rw [if_neg ha]
        rw [hstep]
        exact ih.1 d l h
    · intro d h
      rw [List.foldl_append, List.foldl_cons, List.foldl_nil]
      by_cases ha : pyStartsWith "+CGATT:" a = true
      · rw [List.filter_append, List.filter_cons, if_pos ha, List.filter_nil,
           List.getLast?_append_cons] at h
        simp at h
      · rw [List.filter_append, List.filter_cons, if_neg ha, List.filter_nil,
           List.append_nil] at h
        have hstep : cgattStep (List.foldl cgattStep d ls) a = List.foldl cgattStep d ls := by
          simp only [cgattStep]
          rw [if_neg ha]
        rw [hstep]
        exact ih.2 d h

/-- The left max-fold computes a maximum of its seed and list. -/
theorem foldl_max_spec (xs : List Int) :
    ∀ x : Int,
      (xs.foldl max x = x ∨ xs.foldl max x ∈ xs) ∧
      x ≤ xs.foldl max x ∧ ∀ y ∈ xs, y ≤ xs.foldl max x := by
  induction xs with
  | nil =>
    intro x
    exact ⟨Or.inl rfl, le_refl x, by intro y h; cases h⟩
  | cons a as ih =>
    intro x
    simp only [List.foldl_cons]
    obtain ⟨hmem, hle, hall⟩ := ih (max x a)
    refine ⟨?_, ?_, ?_⟩
    · rcases hmem with h | h
      · rcases max_choice x a with hc | hc
        · left; rw [h, hc]
        · right; rw [h, hc]; exact List.mem_cons_self a as
      · right; exact List.mem_cons_of_mem a h
    · exact le_trans (le_max_left x a) hle
    · intro y hy
      rcases List.mem_cons.mp hy with h | h
      · rw [h]; exact le_trans (le_max_right x a) hle
      · exact hall y h

/-- Field-level characterization of the neighbor decoder. -/
theorem extract_neighbor_fields (lines : List String) (d : NetworkData) :
    (extract_neighbor_cells lines d).neighbor_count = (parseNeighborList lines).length ∧
    (extract_neighbor_cells lines d).best_neighbor_rsrp =
      (match neighborStrengths (parseNeighborList lines) with
       | [] => d.best_neighbor_rsrp
       | x :: xs => toString (xs.foldl max x)) ∧
    (extract_neighbor_cells lines d).neighbor_cells_json =
      (if (parseNeighborList lines).isEmpty then "" else jsonDumps (parseNeighborList lines)) := by
  refine ⟨?_, ?_, ?_⟩ <;>
    simp only [extract_neighbor_cells] <;>
    by_cases hE : (parseNeighborList lines).isEmpty = true
  · rw [List.isEmpty_iff.mp hE]; rfl
  · simp only [if_neg hE]
    cases hS : neighborStrengths (parseNeighborList lines) with
    | nil => rfl
    | cons x xs => rfl
  · rw [List.isEmpty_iff.mp hE]; rfl
  · simp only [if_neg hE]
    cases hS : neighborStrengths (parseNeighborList lines) with
    | nil => rfl
    | cons x xs => rfl

/-- Below the minimum field count the LTE parser emits nothing. -/
theorem parse_lte_serving_short (parts : List String) (d : NetworkData)
    (h : parts.length < 18) : parse_lte_serving parts d = d := by
  simp only [parse_lte_serving]
  rw [if_neg (by omega)]

/-- Below the minimum field count the NR5G-SA parser emits nothing. -/
theorem parse_nr5g_sa_serving_short (parts : List String) (d : NetworkData)
    (h : parts.length < 17) : parse_nr5g_sa_serving parts d = d := by
  simp only [parse_nr5g_sa_serving]
  rw [if_neg (by omega)]

/-- Below the minimum field count the NR5G-NSA parser emits nothing. -/
theorem parse_nr5g_nsa_serving_short (parts : List String) (d : NetworkData)
    (h : parts.length < 11) : parse_nr5g_nsa_serving parts d = d := by
  simp only [parse_nr5g_nsa_serving]
  rw [if_neg (by omega)]

/-- Below the minimum field count the WCDMA parser emits nothing. -/
theorem parse_wcdma_serving_short (parts : List String) (d : NetworkData)
    (h : parts.length < 17) : parse_wcdma_serving parts d = d := by
  simp only [parse_wcdma_serving]
  rw [if_neg (by omega)]

/-- C1 counterexample: on the scenario line the decoder does not produce
mcc 001 and pci 99 — the LTE parser reads mcc from token 3, which holds the
duplexing tag FDD, and pci from token 6. -/
theorem C1_counterexample :
    ¬ ((extract_serving_cell [scenarioServingLine] NetworkData.init).rrc_state = "CONNECT" ∧
       (extract_serving_cell [scenarioServingLine] NetworkData.init).technology = "LTE" ∧
       (extract_serving_cell [scenarioServingLine] NetworkData.init).mcc = "001" ∧
       (extract_serving_cell [scenarioServingLine] NetworkData.init).pci = "99" ∧
       (extract_serving_cell [scenarioServingLine] NetworkData.init).rsrp = "-95" ∧
       (extract_serving_cell [scenarioServingLine] NetworkData.init).sinr = "12") := by
  decide

/-- C1 amended: fed the scenario line on a fresh record, the decoder yields
rrc_state CONNECT, technology LTE, rsrp -95 and sinr 12 as the spec says,
but mcc FDD (token 3) and pci 1A2B3C (token 6). -/
theorem C1_theorem :
    (extract_serving_cell [scenarioServingLine] NetworkData.init).rrc_state = "CONNECT" ∧
    (extract_serving_cell [scenarioServingLine] NetworkData.init).technology = "LTE" ∧
    (extract_serving_cell [scenarioServingLine] NetworkData.init).mcc = "FDD" ∧
    (extract_serving_cell [scenarioServingLine] NetworkData.init).pci = "1A2B3C" ∧
    (extract_serving_cell [scenarioServingLine] NetworkData.init).rsrp = "-95" ∧
    (extract_serving_cell [scenarioServingLine] NetworkData.init).sinr = "12" := by
  decide

/-- C2 counterexample: on the scenario line the decoder does not produce
REGISTERED_HOME with tac 1A2B and ci 3C4D5E — it decodes the second
comma-token, which here is the quoted tac, and the three-token line never
reaches the tac/ci branch, which needs four. -/
theorem C2_counterexample :
    ¬ ((extract_nas_states [] [] [scenarioCeregLine] [] NetworkData.init).eps_state =
          "REGISTERED_HOME" ∧
       (extract_nas_states [] [] [scenarioCeregLine] [] NetworkData.init).eps_tac = "1A2B" ∧
       (extract_nas_states [] [] [scenarioCeregLine] [] NetworkData.init).eps_ci = "3C4D5E") := by
  decide

/-- C2 amended: on the scenario line the decoder leaves eps_tac and eps_ci
at their defaults and records the unknown-variant state embedding the raw
second token with its quotes. -/
theorem C2_theorem :
    (extract_nas_states [] [] [scenarioCeregLine] [] NetworkData.init).eps_state =
      "UNKNOWN_\"1A2B\"" ∧
    (extract_nas_states [] [] [scenarioCeregLine] [] NetworkData.init).eps_tac = "" ∧
    (extract_nas_states [] [] [scenarioCeregLine] [] NetworkData.init).eps_ci = "" := by
  decide

/-- C3: with every unprotected Python list access modelled as a raising
operation, every decoder and the whole assembler return normally on every
input — the length guards, marker guards and try/except blocks suffice —
the cycle yields exactly the one pure record, and a cycle whose queries all
return nothing leaves every field of the fresh record at its default. -/
theorem C3_theorem :
    (∀ (ts : String) (rs : Responses),
      extract_all_dataE ts rs = Except.ok (extract_all_data ts rs)) ∧
    (∀ (lines : List String) (d : NetworkData),
      extract_serving_cellE lines d = Except.ok (extract_serving_cell lines d)) ∧
    (∀ (creg cgreg cereg c5greg : List String) (d : NetworkData),
      extract_nas_statesE creg cgreg cereg c5greg d =
        Except.ok (extract_nas_states creg cgreg cereg c5greg d)) ∧
    (∀ (cpin cops cgatt : List String) (d : NetworkData),
      extract_auth_infoE cpin cops cgatt d = Except.ok (extract_auth_info cpin cops cgatt d)) ∧
    (∀ (lines : List String) (d : NetworkData),
      extract_neighbor_cellsE lines d = Except.ok (extract_neighbor_cells lines d)) ∧
    (∀ (csq qca : List String) (d : NetworkData),
      extract_signal_metricsE csq qca d = Except.ok (extract_signal_metrics csq qca d)) ∧
    (∀ ts : String,
      extract_all_data ts Responses.empty = { NetworkData.init with timestamp := ts }) :=
  ⟨extract_all_dataE_ok, extract_serving_cellE_ok, extract_nas_statesE_ok,
   extract_auth_infoE_ok, extract_neighbor_cellsE_ok, extract_signal_metricsE_ok,
   fun _ => rfl⟩

/-- C4: the registration-state lookup sends each of the eleven codes 0..10
to its exact symbolic name and every other token to the unknown variant
embedding the token, and never fails. -/
theorem C4_theorem :
    (decode_reg_state "0" = "NOT_REGISTERED" ∧
     decode_reg_state "1" = "REGISTERED_HOME" ∧
     decode_reg_state "2" = "SEARCHING" ∧
     decode_reg_state "3" = "DENIED" ∧
     decode_reg_state "4" = "UNKNOWN" ∧
     decode_reg_state "5" = "REGISTERED_ROAMING" ∧
     decode_reg_state "6" = "REGISTERED_SMS_ONLY_HOME" ∧
     decode_reg_state "7" = "REGISTERED_SMS_ONLY_ROAMING" ∧
     decode_reg_state "8" = "EMERGENCY_ONLY" ∧
     decode_reg_state "9" = "REGISTERED_CSFB_NOT_PREFERRED_HOME" ∧
     decode_reg_state "10" = "REGISTERED_CSFB_NOT_PREFERRED_ROAMING") ∧
    (∀ s : String,
      s ∉ (["0", "1", "2", "3", "4", "5", "6", "7", "8", "9", "10"] : List String) →
      decode_reg_state s = "UNKNOWN_" ++ s) := by
  constructor
  · decide
  · intro s hs
    simp only [List.mem_cons, List.not_mem_nil, or_false, not_or] at hs
    obtain ⟨h0, h1, h2, h3, h4, h5, h6, h7, h8, h9, h10⟩ := hs
    simp only [decode_reg_state, h0, h1, h2, h3, h4, h5, h6, h7, h8, h9, h10, if_false]

/-- C4 witness at the undefined code 42. -/
theorem C4_witness : decode_reg_state "42" = "UNKNOWN_42" :=
  C4_theorem.2 "42" (by decide)

/-- C5 counterexample: a response with one parsed entry whose strength is
N/A yields no numeric value, yet neighbor_count is 1 and the serialized
payload is nonempty — the claim asserts count 0 and an empty payload
whenever no entry yields a numeric value. -/
theorem C5_counterexample :
    neighborStrengths (parseNeighborList [naNeighborLine]) = [] ∧
    (extract_neighbor_cells [naNeighborLine] NetworkData.init).neighbor_count = 1 ∧
    (extract_neighbor_cells [naNeighborLine] NetworkData.init).best_neighbor_rsrp = "" ∧
    (extract_neighbor_cells [naNeighborLine] NetworkData.init).neighbor_cells_json ≠ "" := by
  refine ⟨by decide, by decide, by decide, by decide⟩

/-- C5 amended: neighbor_count is the number of parsed entries; the best
strength is the string form of a maximum of the numeric strengths — rsrp
with rscp fallback, skipping empty, N/A and non-numeric — staying empty when
no entry yields a number; and only when no entry parses at all are the count
zero and the payload empty. -/
theorem C5_theorem : ∀ lines : List String,
    (extract_neighbor_cells lines NetworkData.init).neighbor_count =
      (parseNeighborList lines).length ∧
    (neighborStrengths (parseNeighborList lines) = [] →
      (extract_neighbor_cells lines NetworkData.init).best_neighbor_rsrp = "") ∧
    (∀ (m : Int) (ms : List Int), neighborStrengths (parseNeighborList lines) = m :: ms →
      ∃ b : Int, b ∈ neighborStrengths (parseNeighborList lines) ∧
        (∀ y ∈ neighborStrengths (parseNeighborList lines), y ≤ b) ∧
        (extract_neighbor_cells lines NetworkData.init).best_neighbor_rsrp = toString b) ∧
    (parseNeighborList lines = [] →
      (extract_neighbor_cells lines NetworkData.init).neighbor_count = 0 ∧
      (extract_neighbor_cells lines NetworkData.init).best_neighbor_rsrp = "" ∧
      (extract_neighbor_cells lines NetworkData.init).neighbor_cells_json = "") := by
  intro lines
  obtain ⟨hc, hb, hj⟩ := extract_neighbor_fields lines NetworkData.init
  refine ⟨hc, ?_, ?_, ?_⟩
  · intro hnil
    rw [hb, hnil]
    rfl
  · intro m ms hcons
    refine ⟨ms.foldl max m, ?_, ?_, ?_⟩
    · rw [hcons]
      rcases (foldl_max_spec ms m).1 with h | h
      · rw [h]; exact List.mem_cons_self m ms
      · exact List.mem_cons_of_mem m h
    · intro y hy
      rw [hcons] at hy
      rcases List.mem_cons.mp hy with h | h
      · rw [h]; exact (foldl_max_spec ms m).2.1
      · exact (foldl_max_spec ms m).2.2 y h
    · rw [hb, hcons]
  · intro hnil
    have hs : neighborStrengths (parseNeighborList lines) = [] := by rw [hnil]; rfl
    refine ⟨?_, ?_, ?_⟩
    · rw [hc, hnil]; rfl
    · rw [hb, hs]
      rfl
    · rw [hj, hnil]; rfl

/-- C5 witness: two entries with strengths -80 and -75 give best -75; the
all-N/A response keeps the best-strength field empty. -/
theorem C5_witness :
    (extract_neighbor_cells twoNeighborLines NetworkData.init).best_neighbor_rsrp = "-75" ∧
    (extract_neighbor_cells [naNeighborLine] NetworkData.init).best_neighbor_rsrp = "" := by
  constructor
  · obtain ⟨b, hmem, hmax, heq⟩ :=
      (C5_theorem twoNeighborLines).2.2.1 (-80) [-75] (by decide)
    have hb : b = -75 := by
      have h1 := hmax (-75) (by decide)
      have h2 : b ∈ ([-80, -75] : List Int) := by
        have hs : neighborStrengths (parseNeighborList twoNeighborLines) =
            ([-80, -75] : List Int) := by decide
        rw [hs] at hmem
        exact hmem
      rcases List.mem_cons.mp h2 with h | h
      · rw [h] at h1 ⊢
        omega
      · simp only [List.mem_singleton] at h
        exact h
    rw [heq, hb]
    rfl
  · exact (C5_theorem [naNeighborLine]).2.1 (by decide)

/-- C6: each technology parser, fed exactly its minimum number of
comma-separated tokens, assigns every field of its index-to-field table from
the corresponding token, and fed fewer tokens than its minimum changes
nothing.  For the LTE layout the leading token is the serving-cell marker
field, which does not begin with the EN-DC LTE marker, so the index offset
is zero. -/
theorem C6_theorem :
    (∀ (t0 t1 t2 t3 t4 t5 t6 t7 t8 t9 t10 t11 t12 t13 t14 t15 t16 t17 : String),
      pyStartsWith "+QENG: \"LTE\"" t0 = false → ∀ d : NetworkData,
      parse_lte_serving [t0, t1, t2, t3, t4, t5, t6, t7, t8, t9, t10, t11, t12, t13, t14, t15, t16, t17] d =
        { d with
        mcc := stripQ t3, mnc := stripQ t4, cell_id := stripQ t5, pci := stripQ t6,
        earfcn_arfcn := stripQ t7, band := stripQ t8, bandwidth := stripQ t9,
        tac_lac := stripQ t11, rsrp := stripQ t12, rsrq := stripQ t13, rssi := stripQ t14,
        sinr := stripQ t15, cqi := stripQ t16, tx_power := stripQ t17 }) ∧
    (∀ (parts : List String) (d : NetworkData), parts.length < 18 →
      parse_lte_serving parts d = d) ∧
    (∀ (t0 t1 t2 t3 t4 t5 t6 t7 t8 t9 t10 t11 t12 t13 t14 t15 t16 : String), ∀ d : NetworkData,
      parse_nr5g_sa_serving [t0, t1, t2, t3, t4, t5, t6, t7, t8, t9, t10, t11, t12, t13, t14, t15, t16] d =
        { d with
        mcc := stripQ t4, mnc := stripQ t5, cell_id := stripQ t6, pci := stripQ t7,
        tac_lac := stripQ t8, earfcn_arfcn := stripQ t9, band := stripQ t10,
        bandwidth := stripQ t11, rsrp := stripQ t12, rsrq := stripQ t13,
        sinr := stripQ t14, rssi := stripQ t15, tx_power := stripQ t16 }) ∧
    (∀ (parts : List String) (d : NetworkData), parts.length < 17 →
      parse_nr5g_sa_serving parts d = d) ∧
    (∀ (t0 t1 t2 t3 t4 t5 t6 t7 t8 t9 t10 : String), ∀ d : NetworkData,
      parse_nr5g_nsa_serving [t0, t1, t2, t3, t4, t5, t6, t7, t8, t9, t10] d =
        { d with
        mcc := stripQ t1, mnc := stripQ t2, pci := stripQ t3, rsrp := stripQ t4,
        sinr := stripQ t5, rsrq := stripQ t6, earfcn_arfcn := stripQ t7,
        band := stripQ t8, bandwidth := stripQ t9, scs := stripQ t10 }) ∧
    (∀ (parts : List String) (d : NetworkData), parts.length < 11 →
      parse_nr5g_nsa_serving parts d = d) ∧
    (∀ (t0 t1 t2 t3 t4 t5 t6 t7 t8 t9 t10 t11 t12 t13 t14 t15 t16 : String), ∀ d : NetworkData,
      parse_wcdma_serving [t0, t1, t2, t3, t4, t5, t6, t7, t8, t9, t10, t11, t12, t13, t14, t15, t16] d =
        { d with
        mcc := stripQ t4, mnc := stripQ t5, tac_lac := stripQ t6, cell_id := stripQ t7,
        earfcn_arfcn := stripQ t8, pci := stripQ t9, rsrp := stripQ t11, rsrq := stripQ t12 }) ∧
    (∀ (parts : List String) (d : NetworkData), parts.length < 17 →
      parse_wcdma_serving parts d = d) := by
  refine ⟨?_, ?_, ?_, ?_, ?_, ?_, ?_, ?_⟩
  · intro t0 t1 t2 t3 t4 t5 t6 t7 t8 t9 t10 t11 t12 t13 t14 t15 t16 t17 h0 d
    simp [parse_lte_serving, tryAssign, pureAssign, condGet, h0]
  · intro parts d h
    exact parse_lte_serving_short parts d h
  · intro t0 t1 t2 t3 t4 t5 t6 t7 t8 t9 t10 t11 t12 t13 t14 t15 t16 d
    simp [parse_nr5g_sa_serving, tryAssign, pureAssign, condGet]
  · intro parts d h
    exact parse_nr5g_sa_serving_short parts d h
  · intro t0 t1 t2 t3 t4 t5 t6 t7 t8 t9 t10 d
    simp [parse_nr5g_nsa_serving, tryAssign, pureAssign, condGet]
  · intro parts d h
    exact parse_nr5g_nsa_serving_short parts d h
  · intro t0 t1 t2 t3 t4 t5 t6 t7 t8 t9 t10 t11 t12 t13 t14 t15 t16 d
    simp [parse_wcdma_serving, tryAssign, pureAssign, condGet]
  · intro parts d h
    exact parse_wcdma_serving_short parts d h

/-- C6 witness: one concrete minimum-length line per technology, plus one
short token list per technology left unchanged. -/
theorem C6_witness :
    parse_lte_serving ["m", "a", "b", "c3", "c4", "c5", "c6", "c7", "c8", "c9", "c10",
        "c11", "c12", "c13", "c14", "c15", "c16", "c17"] NetworkData.init =
      { NetworkData.init with
        mcc := "c3", mnc := "c4", cell_id := "c5", pci := "c6", earfcn_arfcn := "c7",
        band := "c8", bandwidth := "c9", tac_lac := "c11", rsrp := "c12", rsrq := "c13",
        rssi := "c14", sinr := "c15", cqi := "c16", tx_power := "c17" } ∧
    parse_lte_serving ["m", "a", "b"] NetworkData.init = NetworkData.init ∧
    parse_nr5g_sa_serving ["s0", "s1", "s2", "s3", "s4", "s5", "s6", "s7", "s8", "s9",
        "s10", "s11", "s12", "s13", "s14", "s15", "s16"] NetworkData.init =
      { NetworkData.init with
        mcc := "s4", mnc := "s5", cell_id := "s6", pci := "s7", tac_lac := "s8",
        earfcn_arfcn := "s9", band := "s10", bandwidth := "s11", rsrp := "s12",
        rsrq := "s13", sinr := "s14", rssi := "s15", tx_power := "s16" } ∧
    parse_nr5g_sa_serving ["s0"] NetworkData.init = NetworkData.init ∧
    parse_nr5g_nsa_serving ["n0", "n1", "n2", "n3", "n4", "n5", "n6", "n7", "n8", "n9",
        "n10"] NetworkData.init =
      { NetworkData.init with
        mcc := "n1", mnc := "n2", pci := "n3", rsrp := "n4", sinr := "n5", rsrq := "n6",
        earfcn_arfcn := "n7", band := "n8", bandwidth := "n9", scs := "n10" } ∧
    parse_nr5g_nsa_serving ["n0"] NetworkData.init = NetworkData.init ∧
    parse_wcdma_serving ["w0", "w1", "w2", "w3", "w4", "w5", "w6", "w7", "w8", "w9",
        "w10", "w11", "w12", "w13", "w14", "w15", "w16"] NetworkData.init =
      { NetworkData.init with
        mcc := "w4", mnc := "w5", tac_lac := "w6", cell_id := "w7", earfcn_arfcn := "w8",
        pci := "w9", rsrp := "w11", rsrq := "w12" } ∧
    parse_wcdma_serving ["w0"] NetworkData.init = NetworkData.init := by
  refine ⟨?_, ?_, ?_, ?_, ?_, ?_, ?_, ?_⟩
  · rw [C6_theorem.1 "m" "a" "b" "c3" "c4" "c5" "c6" "c7" "c8" "c9" "c10" "c11" "c12"
      "c13" "c14" "c15" "c16" "c17" (by decide) NetworkData.init]
    decide
  · exact C6_theorem.2.1 ["m", "a", "b"] NetworkData.init (by decide)
  · rw [C6_theorem.2.2.1 "s0" "s1" "s2" "s3" "s4" "s5" "s6" "s7" "s8" "s9" "s10" "s11"
      "s12" "s13" "s14" "s15" "s16" NetworkData.init]
    decide
  · exact C6_theorem.2.2.2.1 ["s0"] NetworkData.init (by decide)
  · rw [C6_theorem.2.2.2.2.1 "n0" "n1" "n2" "n3" "n4" "n5" "n6" "n7" "n8" "n9" "n10"
      NetworkData.init]
    decide
  · exact C6_theorem.2.2.2.2.2.1 ["n0"] NetworkData.init (by decide)
  · rw [C6_theorem.2.2.2.2.2.2.1 "w0" "w1" "w2" "w3" "w4" "w5" "w6" "w7" "w8" "w9" "w10"
      "w11" "w12" "w13" "w14" "w15" "w16" NetworkData.init]
    decide
  · exact C6_theorem.2.2.2.2.2.2.2 ["w0"] NetworkData.init (by decide)

/-- C7: each decoder only overwrites its own field group — the five groups
name pairwise disjoint record fields and each `set...` leaves every field
outside its group untouched — the decoders commute pairwise on all inputs,
and running them against the assembler order reproduces the assembled
record. -/
theorem C7_theorem :
    (∀ (ls : List String) (d : NetworkData),
      ∃ g, extract_serving_cell ls d = setServing g d) ∧
    (∀ (l1 l2 l3 l4 : List String) (d : NetworkData),
      ∃ g, extract_nas_states l1 l2 l3 l4 d = setNas g d) ∧
    (∀ (m1 m2 m3 : List String) (d : NetworkData),
      ∃ g, extract_auth_info m1 m2 m3 d = setAuth g d) ∧
    (∀ (nb : List String) (d : NetworkData),
      ∃ g, extract_neighbor_cells nb d = setNeighbor g d) ∧
    (∀ (q1 q2 : List String) (d : NetworkData),
      ∃ g, extract_signal_metrics q1 q2 d = setSignal g d) ∧
    (∀ (ls l1 l2 l3 l4 : List String) (d : NetworkData),
      extract_serving_cell ls (extract_nas_states l1 l2 l3 l4 d) =
        extract_nas_states l1 l2 l3 l4 (extract_serving_cell ls d)) ∧
    (∀ (ls m1 m2 m3 : List String) (d : NetworkData),
      extract_serving_cell ls (extract_auth_info m1 m2 m3 d) =
        extract_auth_info m1 m2 m3 (extract_serving_cell ls d)) ∧
    (∀ (ls nb : List String) (d : NetworkData),
      extract_serving_cell ls (extract_neighbor_cells nb d) =
        extract_neighbor_cells nb (extract_serving_cell ls d)) ∧
    (∀ (ls q1 q2 : List String) (d : NetworkData),
      extract_serving_cell ls (extract_signal_metrics q1 q2 d) =
        extract_signal_metrics q1 q2 (extract_serving_cell ls d)) ∧
    (∀ (l1 l2 l3 l4 m1 m2 m3 : List String) (d : NetworkData),
      extract_nas_states l1 l2 l3 l4 (extract_auth_info m1 m2 m3 d) =
        extract_auth_info m1 m2 m3 (extract_nas_states l1 l2 l3 l4 d)) ∧
    (∀ (l1 l2 l3 l4 nb : List String) (d : NetworkData),
      extract_nas_states l1 l2 l3 l4 (extract_neighbor_cells nb d) =
        extract_neighbor_cells nb (extract_nas_states l1 l2 l3 l4 d)) ∧
    (∀ (l1 l2 l3 l4 q1 q2 : List String) (d : NetworkData),
      extract_nas_states l1 l2 l3 l4 (extract_signal_metrics q1 q2 d) =
        extract_signal_metrics q1 q2 (extract_nas_states l1 l2 l3 l4 d)) ∧
    (∀ (m1 m2 m3 nb : List String) (d : NetworkData),
      extract_auth_info m1 m2 m3 (extract_neighbor_cells nb d) =
        extract_neighbor_cells nb (extract_auth_info m1 m2 m3 d)) ∧
    (∀ (m1 m2 m3 q1 q2 : List String) (d : NetworkData),
      extract_auth_info m1 m2 m3 (extract_signal_metrics q1 q2 d) =
        extract_signal_metrics q1 q2 (extract_auth_info m1 m2 m3 d)) ∧
    (∀ (nb q1 q2 : List String) (d : NetworkData),
      extract_neighbor_cells nb (extract_signal_metrics q1 q2 d) =
        extract_signal_metrics q1 q2 (extract_neighbor_cells nb d)) ∧
    (∀ (ts : String) (rs : Responses),
      extract_serving_cell rs.serving (extract_nas_states rs.creg rs.cgreg rs.cereg rs.c5greg
        (extract_auth_info rs.cpin rs.cops rs.cgatt (extract_neighbor_cells rs.neighbour
          (extract_signal_metrics rs.csq rs.qcainfo
            { NetworkData.init with timestamp := ts })))) = extract_all_data ts rs) := by
  refine ⟨?_, ?_, ?_, ?_, ?_,
    comm_serving_nas, comm_serving_auth, comm_serving_neighbor, comm_serving_signal,
    comm_nas_auth, comm_nas_neighbor, comm_nas_signal,
    comm_auth_neighbor, comm_auth_signal, comm_neighbor_signal, ?_⟩
  · intro ls d
    exact ⟨extract_serving_cellF ls (getServing d), extract_serving_cell_shape ls d⟩
  · intro l1 l2 l3 l4 d
    exact ⟨extract_nas_statesF l1 l2 l3 l4 (getNas d), extract_nas_states_shape l1 l2 l3 l4 d⟩
  · intro m1 m2 m3 d
    exact ⟨extract_auth_infoF m1 m2 m3 (getAuth d), extract_auth_info_shape m1 m2 m3 d⟩
  · intro nb d
    exact ⟨extract_neighbor_cellsF nb (getNeighbor d), extract_neighbor_cells_shape nb d⟩
  · intro q1 q2 d
    exact ⟨extract_signal_metricsF q1 q2 (getSignal d), extract_signal_metrics_shape q1 q2 d⟩
  · intro ts rs
    simp only [extract_all_data, extract_serving_cell_shape, extract_nas_states_shape,
      extract_auth_info_shape, extract_neighbor_cells_shape, extract_signal_metrics_shape]
    rfl

/-- C8: every decoder is a pure function of its response lines and incoming
record — two calls on freshly reset targets with the same input agree — and
the concurrent serving-cell counter accumulates only within one call, adding
exactly the number of EN-DC companion lines of that call, so a fresh call
never sees a previous call's count. -/
theorem C8_theorem :
    (∀ (ls : List String) (d : NetworkData),
      (extract_serving_cell ls d).serving_cell_count =
        d.serving_cell_count + enDcCount ls) ∧
    (∀ ls : List String,
      (extract_serving_cell ls NetworkData.init).serving_cell_count = enDcCount ls) ∧
    (∀ ls1 ls2 : List String,
      (extract_serving_cell ls2 (extract_serving_cell ls1 NetworkData.init)).serving_cell_count =
        enDcCount ls1 + enDcCount ls2) ∧
    (∀ (ls : List String) (d1 d2 : NetworkData), d1 = NetworkData.init → d2 = NetworkData.init →
      extract_serving_cell ls d1 = extract_serving_cell ls d2) ∧
    (∀ (l1 l2 l3 l4 : List String) (d1 d2 : NetworkData),
      d1 = NetworkData.init → d2 = NetworkData.init →
      extract_nas_states l1 l2 l3 l4 d1 = extract_nas_states l1 l2 l3 l4 d2) ∧
    (∀ (m1 m2 m3 : List String) (d1 d2 : NetworkData),
      d1 = NetworkData.init → d2 = NetworkData.init →
      extract_auth_info m1 m2 m3 d1 = extract_auth_info m1 m2 m3 d2) ∧
    (∀ (nb : List String) (d1 d2 : NetworkData), d1 = NetworkData.init → d2 = NetworkData.init →
      extract_neighbor_cells nb d1 = extract_neighbor_cells nb d2) ∧
    (∀ (q1 q2 : List String) (d1 d2 : NetworkData),
      d1 = NetworkData.init → d2 = NetworkData.init →
      extract_signal_metrics q1 q2 d1 = extract_signal_metrics q1 q2 d2) := by
  refine ⟨extract_serving_cell_count, ?_, ?_, ?_, ?_, ?_, ?_, ?_⟩
  · intro ls
    rw [extract_serving_cell_count]
    show 0 + enDcCount ls = enDcCount ls
    omega
  · intro ls1 ls2
    rw [extract_serving_cell_count, extract_serving_cell_count]
    show 0 + enDcCount ls1 + enDcCount ls2 = enDcCount ls1 + enDcCount ls2
    omega
  · intro ls d1 d2 h1 h2; rw [h1, h2]
  · intro l1 l2 l3 l4 d1 d2 h1 h2; rw [h1, h2]
  · intro m1 m2 m3 d1 d2 h1 h2; rw [h1, h2]
  · intro nb d1 d2 h1 h2; rw [h1, h2]
  · intro q1 q2 d1 d2 h1 h2; rw [h1, h2]

/-- C8 witness: one serving-cell response with two EN-DC companion lines
counts two on a fresh record, and the reset-twice calls agree. -/
theorem C8_witness :
    (extract_serving_cell ["+QENG: \"LTE\",x", "+QENG: \"NR5G-NSA\",y", "junk"]
      NetworkData.init).serving_cell_count =
      enDcCount ["+QENG: \"LTE\",x", "+QENG: \"NR5G-NSA\",y", "junk"] ∧
    extract_serving_cell ["+QENG: \"LTE\",x"] NetworkData.init =
      extract_serving_cell ["+QENG: \"LTE\",x"] NetworkData.init :=
  ⟨C8_theorem.2.1 ["+QENG: \"LTE\",x", "+QENG: \"NR5G-NSA\",y", "junk"],
   C8_theorem.2.2.2.1 ["+QENG: \"LTE\",x"] NetworkData.init NetworkData.init rfl rfl⟩

/-- C9: a serving-cell line with at least three comma tokens but fewer than
its technology minimum still overwrites rrc_state, technology and cell_type
from the common prefix, leaving every technology-specific field of the fresh
record at its default. -/
theorem C9_theorem : ∀ l : String,
    pyStartsWith "+QENG: \"servingcell\"" l = true →
    3 ≤ (pySplit ',' l).length →
    ((pyIn "LTE" (stripQ ((pySplit ',' l).getD 2 "")) = true →
      (pySplit ',' l).length < 18 →
      extract_serving_cell [l] NetworkData.init =
        { NetworkData.init with
          rrc_state := stripQ ((pySplit ',' l).getD 1 ""),
          technology := stripQ ((pySplit ',' l).getD 2 "")
          cell_type := "serving" }) ∧
     (pyIn "LTE" (stripQ ((pySplit ',' l).getD 2 "")) = false →
      pyIn "NR5G-SA" (stripQ ((pySplit ',' l).getD 2 "")) = true →
      (pySplit ',' l).length < 17 →
      extract_serving_cell [l] NetworkData.init =
        { NetworkData.init with
          rrc_state := stripQ ((pySplit ',' l).getD 1 ""),
          technology := stripQ ((pySplit ',' l).getD 2 "")
          cell_type := "serving" }) ∧
     (pyIn "LTE" (stripQ ((pySplit ',' l).getD 2 "")) = false →
      pyIn "NR5G-SA" (stripQ ((pySplit ',' l).getD 2 "")) = false →
      pyIn "NR5G-NSA" (stripQ ((pySplit ',' l).getD 2 "")) = true →
      (pySplit ',' l).length < 11 →
      extract_serving_cell [l] NetworkData.init =
        { NetworkData.init with
          rrc_state := stripQ ((pySplit ',' l).getD 1 ""),
          technology := stripQ ((pySplit ',' l).getD 2 "")
          cell_type := "serving" }) ∧
     (pyIn "LTE" (stripQ ((pySplit ',' l).getD 2 "")) = false →
      pyIn "NR5G-SA" (stripQ ((pySplit ',' l).getD 2 "")) = false →
      pyIn "NR5G-NSA" (stripQ ((pySplit ',' l).getD 2 "")) = false →
      pyIn "WCDMA" (stripQ ((pySplit ',' l).getD 2 "")) = true →
      (pySplit ',' l).length < 17 →
      extract_serving_cell [l] NetworkData.init =
        { NetworkData.init with
          rrc_state := stripQ ((pySplit ',' l).getD 1 ""),
          technology := stripQ ((pySplit ',' l).getD 2 "")
          cell_type := "serving" })) := by
  intro l h1 h2
  have hstep : extract_serving_cell [l] NetworkData.init =
      servingStep NetworkData.init l := rfl
  refine ⟨?_, ?_, ?_, ?_⟩
  · intro hL hlen
    rw [hstep]
    simp only [servingStep]
    rw [if_pos h1, if_pos h2, if_pos hL]
    exact parse_lte_serving_short _ _ hlen
  · intro hL hS hlen
    rw [hstep]
    simp only [servingStep]
    rw [if_pos h1, if_pos h2, if_neg (by simpa using hL), if_pos hS]
    exact parse_nr5g_sa_serving_short _ _ hlen
  · intro hL hS hN hlen
    rw [hstep]
    simp only [servingStep]
    rw [if_pos h1, if_pos h2, if_neg (by simpa using hL), if_neg (by simpa using hS), if_pos hN]
    exact parse_nr5g_nsa_serving_short _ _ hlen
  · intro hL hS hN hW hlen
    rw [hstep]
    simp only [servingStep]
    rw [if_pos h1, if_pos h2, if_neg (by simpa using hL), if_neg (by simpa using hS),
      if_neg (by simpa using hN), if_pos hW]
    exact parse_wcdma_serving_short _ _ hlen

/-- C9 witness: one short serving-cell line per technology. -/
theorem C9_witness :
    extract_serving_cell [shortLteLine] NetworkData.init =
      { NetworkData.init with
        rrc_state := "SEARCH", technology := "LTE", cell_type := "serving" } ∧
    extract_serving_cell [shortSaLine] NetworkData.init =
      { NetworkData.init with
        rrc_state := "NOCONN", technology := "NR5G-SA", cell_type := "serving" } ∧
    extract_serving_cell [shortNsaLine] NetworkData.init =
      { NetworkData.init with
        rrc_state := "CONNECT", technology := "NR5G-NSA", cell_type := "serving" } ∧
    extract_serving_cell [shortWcdmaLine] NetworkData.init =
      { NetworkData.init with
        rrc_state := "CONNECT", technology := "WCDMA", cell_type := "serving" } := by
  refine ⟨?_, ?_, ?_, ?_⟩
  · exact (((C9_theorem shortLteLine
      (by decide) (by decide)).1 (by decide) (by decide)).trans (by decide))
  · exact (((C9_theorem shortSaLine
      (by decide) (by decide)).2.1 (by decide) (by decide) (by decide)).trans (by decide))
  · exact (((C9_theorem shortNsaLine
      (by decide) (by decide)).2.2.1 (by decide) (by decide) (by decide) (by decide)).trans
      (by decide))
  · exact (((C9_theorem shortWcdmaLine
      (by decide) (by decide)).2.2.2 (by decide) (by decide) (by decide) (by decide)
      (by decide)).trans (by decide))

/-- C10: whenever the attach-state response contains a line starting with
the +CGATT: marker, the decoder sets attach_state from the last such line —
ATTACHED exactly when the trimmed text after the colon is 1, DETACHED for
every other payload — and never leaves it empty. -/
theorem C10_theorem : ∀ (cpin cops cgatt : List String) (d : NetworkData),
    (∀ l : String,
      (cgatt.filter (fun x => pyStartsWith "+CGATT:" x)).getLast? = some l →
      (extract_auth_info cpin cops cgatt d).attach_state =
        (if pyStrip ((pySplitOnce ':' l).getD 1 "") = "1" then "ATTACHED" else "DETACHED")) ∧
    ((∃ x ∈ cgatt, pyStartsWith "+CGATT:" x = true) →
      (extract_auth_info cpin cops cgatt d).attach_state ≠ "") := by
  intro cpin cops cgatt d
  have hdef : extract_auth_info cpin cops cgatt d =
      cgatt.foldl cgattStep (cops.foldl copsStep (cpin.foldl cpinStep d)) := rfl
  constructor
  · intro l h
    rw [hdef]
    exact (foldl_cgatt_last cgatt).1 _ l h
  · rintro ⟨x, hx, hpx⟩
    have hne : cgatt.filter (fun x => pyStartsWith "+CGATT:" x) ≠ [] := by
      intro hnil
      have := List.filter_eq_nil_iff.mp hnil x hx
      exact this hpx
    obtain ⟨l, hl⟩ := Option.isSome_iff_exists.mp (List.getLast?_isSome.mpr hne)
    rw [hdef, (foldl_cgatt_last cgatt).1 _ l hl]
    by_cases hone : pyStrip ((pySplitOnce ':' l).getD 1 "") = "1"
    · rw [if_pos hone]; decide
    · rw [if_neg hone]; decide

/-- C10 witness: payload 1 attaches, payload 0 detaches, and the field is
populated. -/
theorem C10_witness :
    (extract_auth_info [] [] ["+CGATT: 1"] NetworkData.init).attach_state = "ATTACHED" ∧
    (extract_auth_info [] [] ["+CGATT: 0"] NetworkData.init).attach_state = "DETACHED" ∧
    (extract_auth_info [] [] ["+CGATT: 1"] NetworkData.init).attach_state ≠ "" := by
  refine ⟨?_, ?_, ?_⟩
  · rw [(C10_theorem [] [] ["+CGATT: 1"] NetworkData.init).1 "+CGATT: 1" (by decide)]
    decide
  · rw [(C10_theorem [] [] ["+CGATT: 0"] NetworkData.init).1 "+CGATT: 0" (by decide)]
    decide
  · exact (C10_theorem [] [] ["+CGATT: 1"] NetworkData.init).2 ⟨"+CGATT: 1", by decide, by decide⟩
